import Mathlib

set_option maxRecDepth 2000

/-!
# Verification of the soil-monitoring gateway's durable offline queue

A shallow embedding of the core logic of `gateway.py`: the SQLite-backed
offline queue (`OfflineStorage`), the dispatch path for sensor data,
registrations and assignment checks, and one iteration of the background
resynchronisation loop (`process_offline_queue`).

Modelling conventions:
* SQLite rows become a `List Record` kept in rowid (insertion) order;
  `AUTOINCREMENT` becomes the `nextId` counter (ids are never reused).
* `CURRENT_TIMESTAMP` becomes a `clock : Nat` carried in the state; the model
  assumes time strictly advances between operations, so `created_at`
  (the `timestamp` column) totally orders rows.  This matches the spec's
  use of `created_at` as a total eviction/drain order.
* Upstream MySQL / HTTP effects are passed in as explicit outcome values
  (`DbResult`, per-attempt success functions), since they are external
  collaborators; everything done by the gateway itself is computed.
* A Python exception escaping a function is `Option`/`Except` failure.
-/

namespace SoilGateway

/-- The tunable constants of the `Config` class of `gateway.py`. -/
structure Config where
  maxOfflineRecords : Nat
  maxRetries : Nat
  retryDelay : Nat
  apiTimeout : Nat
  batchSize : Nat
deriving DecidableEq

/-- The values assigned in `gateway.py`:
`MAX_OFFLINE_RECORDS = 10000`, `MAX_RETRIES = 3`, `RETRY_DELAY = 5`,
`API_TIMEOUT = 10`, `BATCH_SIZE = 50`. -/
def Config.source : Config :=
  { maxOfflineRecords := 10000, maxRetries := 3, retryDelay := 5,
    apiTimeout := 10, batchSize := 50 }

/-- The `destination` column: `CHECK(destination IN ('mysql', 'api'))`. -/
inductive Destination : Type
  | mysql : Destination
  | api : Destination
deriving DecidableEq

/-- A row of the `offline_queue` table:
`(id, endpoint, data, timestamp, attempts, last_attempt, destination)`. -/
structure Record where
  id : Nat
  endpoint : String
  data : String
  timestamp : Nat
  attempts : Nat
  last_attempt : Option Nat
  destination : Destination
deriving DecidableEq

/-- The persistent state of the SQLite offline queue, plus the modelled clock. -/
structure OfflineStorage where
  queue : List Record
  nextId : Nat
  clock : Nat
deriving DecidableEq

/-- A freshly created database (`init_db` creates an empty `offline_queue`;
SQLite AUTOINCREMENT starts handing out rowid 1). -/
def OfflineStorage.init : OfflineStorage :=
  { queue := [], nextId := 1, clock := 1 }

/-- The comparison used by `ORDER BY timestamp ASC` (a stable sort by the
`timestamp` column, as SQLite produces for this query). -/
def timeLE (a b : Record) : Prop :=
  a.timestamp ≤ b.timestamp

instance : DecidableRel timeLE :=
  fun a b => Nat.decLe a.timestamp b.timestamp

instance : IsTotal Record timeLE :=
  ⟨fun a b => Nat.le_total a.timestamp b.timestamp⟩

instance : IsTrans Record timeLE :=
  ⟨fun _ _ _ => Nat.le_trans⟩

/-- The row inserted by `save_offline`:
`INSERT INTO offline_queue (endpoint, data, destination) VALUES (?, ?, ?)`,
with `timestamp DEFAULT CURRENT_TIMESTAMP` and `attempts DEFAULT 0`. -/
def newRecord (s : OfflineStorage) (endpoint payload : String)
    (destination : Destination) : Record :=
  { id := s.nextId, endpoint := endpoint, data := payload, timestamp := s.clock,
    attempts := 0, last_attempt := none, destination := destination }

/-- Model of `OfflineStorage.save_offline`: insert the row, then if `COUNT(*)` exceeds
`MAX_OFFLINE_RECORDS`, `DELETE FROM offline_queue WHERE id IN (SELECT id FROM
offline_queue ORDER BY timestamp ASC LIMIT count - max)`.  Returns the new
state together with the rowid handed back to the caller. -/
def save_offline (cfg : Config) (s : OfflineStorage) (endpoint payload : String)
    (destination : Destination) : OfflineStorage × Nat :=
  let row := newRecord s endpoint payload destination
  let q1 := s.queue ++ [row]
  let count := q1.length
  let q2 :=
    if cfg.maxOfflineRecords < count then
      let doomed := ((q1.insertionSort timeLE).take (count - cfg.maxOfflineRecords)).map Record.id
      q1.filter fun r => decide (r.id ∉ doomed)
    else q1
  ({ queue := q2, nextId := s.nextId + 1, clock := s.clock + 1 }, row.id)

/-- Model of `OfflineStorage.get_pending_records`:
`SELECT * FROM offline_queue WHERE attempts < ? AND destination = ?
ORDER BY timestamp ASC LIMIT ?` with `(MAX_RETRIES, destination, limit)`. -/
def get_pending_records (cfg : Config) (s : OfflineStorage)
    (destination : Destination) (limit : Nat) : List Record :=
  (((s.queue.filter fun r =>
      decide (r.attempts < cfg.maxRetries) && decide (r.destination = destination)).insertionSort
    timeLE).take limit)

/-- The per-row effect of `UPDATE offline_queue SET attempts = attempts + 1,
last_attempt = CURRENT_TIMESTAMP WHERE id = ?`. -/
def bumpIfId (recordId : Nat) (now : Nat) (r : Record) : Record :=
  if r.id = recordId then
    { r with attempts := r.attempts + 1, last_attempt := some now }
  else r

/-- Model of `OfflineStorage.update_attempt`.  On `success`, `DELETE ... WHERE id = ?`
(a no-op when the id is absent).  Otherwise `UPDATE ... SET attempts =
attempts + 1, last_attempt = CURRENT_TIMESTAMP WHERE id = ?` followed by
`SELECT attempts ... WHERE id = ?` whose `fetchone()[0]` raises when no row
matched; `none` models that escaping exception. -/
def update_attempt (s : OfflineStorage) (recordId : Nat) (success : Bool) :
    Option OfflineStorage :=
  match success with
  | true =>
    some { s with queue := s.queue.filter fun r => decide (r.id ≠ recordId),
                  clock := s.clock + 1 }
  | false =>
    let q := s.queue.map (bumpIfId recordId s.clock)
    match q.find? fun r => decide (r.id = recordId) with
    | some _ => some { s with queue := q, clock := s.clock + 1 }
    | none => none

/-- The three operations the rest of the gateway performs on the queue. -/
inductive QueueOp : Type
  | append (endpoint payload : String) (destination : Destination) : QueueOp
  | complete (recordId : Nat) : QueueOp
  | fail (recordId : Nat) : QueueOp
deriving DecidableEq

/-- Apply one queue operation.  For `complete`/`fail` an escaping exception
leaves the database unchanged (the transaction is never committed). -/
def applyOp (cfg : Config) (s : OfflineStorage) : QueueOp → OfflineStorage
  | .append e p d => (save_offline cfg s e p d).1
  | .complete i => (update_attempt s i true).getD s
  | .fail i => (update_attempt s i false).getD s

/-- Run a sequence of queue operations from a given state. -/
def runFrom (cfg : Config) (s : OfflineStorage) (ops : List QueueOp) : OfflineStorage :=
  ops.foldl (applyOp cfg) s

/-- Run a sequence of queue operations from the freshly initialised database. -/
def run (cfg : Config) (ops : List QueueOp) : OfflineStorage :=
  runFrom cfg OfflineStorage.init ops

/-- The ordering maintained on the stored rows: strictly increasing row id
and strictly increasing creation time. -/
def RowLT (a b : Record) : Prop :=
  a.id < b.id ∧ a.timestamp < b.timestamp

instance : DecidableRel RowLT := by
  unfold RowLT; infer_instance

/-- Well-formedness of a queue state: rows are listed in strictly increasing
id and creation order, ids are below the AUTOINCREMENT counter and creation
times are in the past.  It holds for the fresh database and is preserved by
every operation. -/
def Inv (s : OfflineStorage) : Prop :=
  s.queue.Pairwise RowLT ∧
  (∀ r ∈ s.queue, r.id < s.nextId) ∧
  (∀ r ∈ s.queue, r.timestamp < s.clock)

instance (s : OfflineStorage) : Decidable (Inv s) := by
  unfold Inv; infer_instance

/-! ## Basic facts about the queue operations -/

theorem inv_init : Inv OfflineStorage.init := by
  refine ⟨List.Pairwise.nil, ?_, ?_⟩ <;> intro r hr <;> simp [OfflineStorage.init] at hr

@[simp] theorem bumpIfId_id (i t : Nat) (r : Record) : (bumpIfId i t r).id = r.id := by
  rw [bumpIfId]; split <;> rfl

@[simp] theorem bumpIfId_timestamp (i t : Nat) (r : Record) :
    (bumpIfId i t r).timestamp = r.timestamp := by
  rw [bumpIfId]; split <;> rfl

@[simp] theorem bumpIfId_destination (i t : Nat) (r : Record) :
    (bumpIfId i t r).destination = r.destination := by
  rw [bumpIfId]; split <;> rfl

@[simp] theorem bumpIfId_endpoint (i t : Nat) (r : Record) :
    (bumpIfId i t r).endpoint = r.endpoint := by
  rw [bumpIfId]; split <;> rfl

theorem bumpIfId_of_ne {i : Nat} {r : Record} (t : Nat) (h : r.id ≠ i) :
    bumpIfId i t r = r := by
  rw [bumpIfId, if_neg h]

theorem bumpIfId_of_eq {i : Nat} {r : Record} (t : Nat) (h : r.id = i) :
    bumpIfId i t r = { r with attempts := r.attempts + 1, last_attempt := some t } := by
  rw [bumpIfId, if_pos h]

/-- Rows of a well-ordered list are determined by their id. -/
theorem mem_id_inj {l : List Record} (h : l.Pairwise RowLT) :
    ∀ q ∈ l, ∀ r ∈ l, q.id = r.id → q = r := by
  induction l with
  | nil => simp
  | cons a t ih =>
    rcases List.pairwise_cons.mp h with ⟨ha, ht⟩
    intro q hq r hr hid
    cases List.mem_cons.mp hq with
    | inl hqa =>
      cases List.mem_cons.mp hr with
      | inl hra => rw [hqa, hra]
      | inr hrt =>
        subst hqa
        exact absurd hid (Nat.ne_of_lt (ha r hrt).1)
    | inr hqt =>
      cases List.mem_cons.mp hr with
      | inl hra =>
        subst hra
        exact absurd hid.symm (Nat.ne_of_lt (ha q hqt).1)
      | inr hrt => exact ih ht q hqt r hrt hid

/-- A list that is strictly ordered by `RowLT` is already sorted for
`ORDER BY timestamp ASC`, so sorting leaves it unchanged. -/
theorem insertionSort_eq_self {l : List Record} (h : l.Pairwise RowLT) :
    l.insertionSort timeLE = l :=
  List.Sorted.insertionSort_eq (h.imp fun hab => Nat.le_of_lt hab.2)

/-- After the insert of `save_offline`, the table is still strictly ordered:
the fresh row carries the largest id and the latest creation time. -/
theorem pairwise_insert {s : OfflineStorage} (hinv : Inv s) (e p : String)
    (d : Destination) : (s.queue ++ [newRecord s e p d]).Pairwise RowLT := by
  rcases hinv with ⟨hpw, hid, hts⟩
  refine List.pairwise_append.mpr ⟨hpw, List.pairwise_singleton _ _, ?_⟩
  intro x hx y hy
  rcases List.mem_singleton.mp hy with rfl
  exact ⟨hid x hx, hts x hx⟩

/-- Deleting the rows selected by
`SELECT id FROM offline_queue ORDER BY timestamp ASC LIMIT k` from a strictly
ordered table removes exactly its first `k` rows. -/
theorem filter_doomed_eq_drop {l : List Record} (k : Nat) (h : l.Pairwise RowLT) :
    (l.filter fun r => decide (r.id ∉ (l.take k).map Record.id)) = l.drop k := by
  have hsplit : (l.take k ++ l.drop k).Pairwise RowLT := by
    rwa [List.take_append_drop k l]
  have hcross := List.pairwise_append.mp hsplit
  have htake :
      ((l.take k).filter fun r => decide (r.id ∉ (l.take k).map Record.id)) = [] := by
    rw [List.filter_eq_nil_iff]
    intro a ha
    simp only [decide_eq_true_eq, Decidable.not_not]
    exact List.mem_map_of_mem Record.id ha
  have hdrop :
      ((l.drop k).filter fun r => decide (r.id ∉ (l.take k).map Record.id)) = l.drop k := by
    rw [List.filter_eq_self]
    intro a ha
    simp only [decide_eq_true_eq, List.mem_map, not_exists, not_and]
    intro q hq hqa
    exact absurd hqa (Nat.ne_of_lt (hcross.2.2 q hq a ha).1)
  calc (l.filter fun r => decide (r.id ∉ (l.take k).map Record.id))
      = ((l.take k ++ l.drop k).filter fun r => decide (r.id ∉ (l.take k).map Record.id)) := by
        rw [List.take_append_drop k l]
    _ = l.drop k := by
        rw [List.filter_append, htake, hdrop, List.nil_append]

/-- Characterisation of `save_offline` on a well-formed state: the row is
appended, and eviction (when the bound is exceeded) removes exactly the
oldest surplus rows. -/
theorem save_offline_queue (cfg : Config) (s : OfflineStorage) (e p : String)
    (d : Destination) (hinv : Inv s) :
    (save_offline cfg s e p d).1.queue
      = (s.queue ++ [newRecord s e p d]).drop
          ((s.queue.length + 1) - cfg.maxOfflineRecords) := by
  have hpw := pairwise_insert hinv e p d
  rw [save_offline]
  by_cases hover : cfg.maxOfflineRecords < (s.queue ++ [newRecord s e p d]).length
  · simp only [hover, if_true, insertionSort_eq_self hpw]
    rw [filter_doomed_eq_drop _ hpw, List.length_append, List.length_singleton]
  · simp only [hover, if_false]
    rw [List.length_append, List.length_singleton] at hover
    rw [Nat.sub_eq_zero_of_le (Nat.not_lt.mp hover), List.drop_zero]

theorem save_offline_nextId (cfg : Config) (s : OfflineStorage) (e p : String)
    (d : Destination) : (save_offline cfg s e p d).1.nextId = s.nextId + 1 := rfl

theorem save_offline_clock (cfg : Config) (s : OfflineStorage) (e p : String)
    (d : Destination) : (save_offline cfg s e p d).1.clock = s.clock + 1 := rfl

theorem inv_save_offline (cfg : Config) {s : OfflineStorage} (e p : String)
    (d : Destination) (hinv : Inv s) : Inv (save_offline cfg s e p d).1 := by
  have hq := save_offline_queue cfg s e p d hinv
  have hpw := pairwise_insert hinv e p d
  have hsub : (save_offline cfg s e p d).1.queue.Sublist (s.queue ++ [newRecord s e p d]) := by
    rw [hq]; exact List.drop_sublist _ _
  refine ⟨List.Pairwise.sublist hsub hpw, ?_, ?_⟩ <;> intro r hr <;>
    have hr1 := hsub.mem hr <;>
    rcases List.mem_append.mp hr1 with hr2 | hr2
  · exact Nat.lt_succ_of_lt (hinv.2.1 r hr2)
  · rw [List.mem_singleton.mp hr2, save_offline_nextId]
    exact Nat.lt_succ_self _
  · exact Nat.lt_succ_of_lt (hinv.2.2 r hr2)
  · rw [List.mem_singleton.mp hr2, save_offline_clock]
    exact Nat.lt_succ_self _

theorem update_attempt_true (s : OfflineStorage) (i : Nat) :
    update_attempt s i true
      = some { s with queue := s.queue.filter fun r => decide (r.id ≠ i),
                      clock := s.clock + 1 } := rfl

/-- When some row has the requested id, the failure branch of
`update_attempt` commits the bumped table. -/
theorem update_attempt_false_of_mem {s : OfflineStorage} {i : Nat}
    (h : ∃ r ∈ s.queue, r.id = i) :
    update_attempt s i false
      = some { s with queue := s.queue.map (bumpIfId i s.clock),
                      clock := s.clock + 1 } := by
  rcases h with ⟨r, hr, hri⟩
  have hfind : ((s.queue.map (bumpIfId i s.clock)).find? fun r => decide (r.id = i)).isSome := by
    rw [List.find?_isSome]
    exact ⟨bumpIfId i s.clock r, List.mem_map_of_mem _ hr, by simp [hri]⟩
  rcases Option.isSome_iff_exists.mp hfind with ⟨w, hw⟩
  simp only [update_attempt, hw]

/-- When no row has the requested id, the post-update `SELECT` comes back
empty and `fetchone()[0]` raises. -/
theorem update_attempt_false_of_not_mem {s : OfflineStorage} {i : Nat}
    (h : ∀ r ∈ s.queue, r.id ≠ i) :
    update_attempt s i false = none := by
  have hfind : ((s.queue.map (bumpIfId i s.clock)).find? fun r => decide (r.id = i)) = none := by
    rw [List.find?_eq_none]
    intro x hx
    rcases List.mem_map.mp hx with ⟨r, hr, rfl⟩
    simp only [bumpIfId_id, decide_eq_true_eq]
    exact h r hr
  simp only [update_attempt, hfind]

theorem inv_update_attempt {s s' : OfflineStorage} {i : Nat} {b : Bool}
    (hinv : Inv s) (h : update_attempt s i b = some s') : Inv s' := by
  rcases hinv with ⟨hpw, hid, hts⟩
  cases b
  · simp only [update_attempt] at h
    rcases hfind : (s.queue.map (bumpIfId i s.clock)).find? fun r => decide (r.id = i) with _ | w <;>
      rw [hfind] at h
    · exact absurd h (by simp)
    · rw [Option.some_inj] at h
      subst h
      refine ⟨?_, ?_, ?_⟩
      · refine List.pairwise_map.mpr (hpw.imp fun hab => ?_)
        simpa [RowLT] using hab
      · intro r hr
        rcases List.mem_map.mp hr with ⟨q, hq, rfl⟩
        simpa using hid q hq
      · intro r hr
        rcases List.mem_map.mp hr with ⟨q, hq, rfl⟩
        simpa using Nat.lt_succ_of_lt (hts q hq)
  · rw [update_attempt_true, Option.some_inj] at h
    subst h
    refine ⟨List.Pairwise.sublist (List.filter_sublist _) hpw, ?_, ?_⟩ <;> intro r hr <;>
      have hr' := (List.filter_sublist _).mem hr
    · exact hid r hr'
    · exact Nat.lt_succ_of_lt (hts r hr')

theorem update_attempt_length_le {s s' : OfflineStorage} {i : Nat} {b : Bool}
    (h : update_attempt s i b = some s') : s'.queue.length ≤ s.queue.length := by
  cases b
  · simp only [update_attempt] at h
    rcases hfind : (s.queue.map (bumpIfId i s.clock)).find? fun r => decide (r.id = i) with _ | w <;>
      rw [hfind] at h
    · exact absurd h (by simp)
    · rw [Option.some_inj] at h
      subst h
      simp
  · rw [update_attempt_true, Option.some_inj] at h
    subst h
    exact (List.filter_sublist _).length_le

theorem inv_applyOp (cfg : Config) {s : OfflineStorage} (op : QueueOp)
    (hinv : Inv s) : Inv (applyOp cfg s op) := by
  cases op with
  | append e p d => exact inv_save_offline cfg e p d hinv
  | complete i =>
    simp only [applyOp]
    rcases h : update_attempt s i true with _ | s'
    · simpa [h] using hinv
    · simpa [h] using inv_update_attempt hinv h
  | fail i =>
    simp only [applyOp]
    rcases h : update_attempt s i false with _ | s'
    · simpa [h] using hinv
    · simpa [h] using inv_update_attempt hinv h

theorem applyOp_length_le (cfg : Config) {s : OfflineStorage} (op : QueueOp)
    (hinv : Inv s) (hl : s.queue.length ≤ cfg.maxOfflineRecords) :
    (applyOp cfg s op).queue.length ≤ cfg.maxOfflineRecords := by
  cases op with
  | append e p d =>
    simp only [applyOp]
    rw [save_offline_queue cfg s e p d hinv, List.length_drop,
      List.length_append, List.length_singleton]
    omega
  | complete i =>
    simp only [applyOp]
    rcases h : update_attempt s i true with _ | s'
    · simpa [h] using hl
    · simp only [h, Option.getD_some]
      exact Nat.le_trans (update_attempt_length_le h) hl
  | fail i =>
    simp only [applyOp]
    rcases h : update_attempt s i false with _ | s'
    · simpa [h] using hl
    · simp only [h, Option.getD_some]
      exact Nat.le_trans (update_attempt_length_le h) hl

theorem inv_runFrom (cfg : Config) {s : OfflineStorage} (ops : List QueueOp)
    (hinv : Inv s) (hl : s.queue.length ≤ cfg.maxOfflineRecords) :
    Inv (runFrom cfg s ops) ∧ (runFrom cfg s ops).queue.length ≤ cfg.maxOfflineRecords := by
  induction ops generalizing s with
  | nil => exact ⟨hinv, hl⟩
  | cons op ops ih =>
    rw [runFrom, List.foldl_cons]
    exact ih (inv_applyOp cfg op hinv) (applyOp_length_le cfg op hinv hl)

theorem inv_run (cfg : Config) (ops : List QueueOp) :
    Inv (run cfg ops) ∧ (run cfg ops).queue.length ≤ cfg.maxOfflineRecords :=
  inv_runFrom cfg ops inv_init (by simp [OfflineStorage.init])

/-! ## The dispatch layer

Upstream effects (MySQL on the Database Pi, the remote HTTP API) are external
collaborators; their outcomes are passed in as values.  `DbResult`
distinguishes the two ways a MySQL call can go wrong in `gateway.py`:
a `mysql.connector.Error` raised by the driver (`dbError`) and the plain
`Exception` raised by `DatabaseManager.get_connection` when the pool is
unavailable (`connError`) — the distinction matters because
`get_sensor_assignment` catches only `Error`. -/

inductive DbResult (α : Type) : Type
  | ok (val : α) : DbResult α
  | dbError : DbResult α
  | connError : DbResult α
deriving DecidableEq

/-- The row produced by the assignment `SELECT` of
`DatabaseManager.get_sensor_assignment` (only the fields the gateway logic
inspects; `farm_id IS NULL` means the sensor exists but is unassigned). -/
structure SensorRow where
  farm_id : Option Nat
  zone_code : String
deriving DecidableEq

/-- The dictionary built by `get_sensor_assignment`. -/
structure AssignmentInfo where
  machine_id : String
  assigned : Bool
  farm_id : Option Nat
  zone_code : String
deriving DecidableEq

/-- Model of `DatabaseManager.get_sensor_assignment`: runs the lookup; a driver
`Error` is caught and turned into `None`; the pool-unavailable `Exception`
from `get_connection` escapes (modelled as `.error ()`); otherwise the
info dictionary is returned, with `assigned = farm_id is not None`. -/
def get_sensor_assignment (machineId : String)
    (lookup : DbResult (Option SensorRow)) : Except Unit (Option AssignmentInfo) :=
  match lookup with
  | .connError => .error ()
  | .dbError => .ok none
  | .ok none => .ok none
  | .ok (some row) =>
      .ok (some { machine_id := machineId, assigned := row.farm_id.isSome,
                  farm_id := row.farm_id, zone_code := row.zone_code })

/-- The distinct exceptions that can escape `DatabaseManager.insert_sensor_data`. -/
inductive InsertError : Type
  | notAssigned : InsertError
  | dbFailure : InsertError
  | connFailure : InsertError
deriving DecidableEq

/-- Model of `DatabaseManager.insert_sensor_data`: first resolve the assignment; if
the info is `None` or `assigned` is false, raise ("Sensor ... is not
assigned to any farm/zone"); otherwise run the INSERT, re-raising its
failure.  `insertRes` is the outcome of that INSERT (`ok` carries
`lastrowid`). -/
def insert_sensor_data (machineId : String) (lookup : DbResult (Option SensorRow))
    (insertRes : DbResult Nat) : Except InsertError Nat :=
  match get_sensor_assignment machineId lookup with
  | .error _ => .error .connFailure
  | .ok none => .error .notAssigned
  | .ok (some info) =>
    if info.assigned then
      match insertRes with
      | .ok newId => .ok newId
      | _ => .error .dbFailure
    else .error .notAssigned

/-- Outcome of `process_sensor_data` as seen by the HTTP handler. -/
inductive ProcessResult : Type
  | stored (mysqlId : Nat) : ProcessResult
  | queuedOffline (offlineId : Nat) : ProcessResult
deriving DecidableEq

/-- Model of `process_sensor_data`: one direct `insert_sensor_data` call; on any
exception (the `except Exception` branch) the payload is saved to the
offline queue with destination `'mysql'`.  The final component counts the
direct-delivery attempts the function makes — the source calls
`insert_sensor_data` exactly once.  (In the model `save_offline` always
succeeds, so the local-SQLite-failure branch returning an error dict is
unreachable.) -/
def process_sensor_data (cfg : Config) (machineId payload : String)
    (lookup : DbResult (Option SensorRow)) (insertRes : DbResult Nat)
    (s : OfflineStorage) : ProcessResult × OfflineStorage × Nat :=
  match insert_sensor_data machineId lookup insertRes with
  | .ok newId => (.stored newId, s, 1)
  | .error _ =>
    let r := save_offline cfg s "/api/sensor-data" payload .mysql
    (.queuedOffline r.2, r.1, 1)

/-- The retry loop of `call_api`: `for attempt in range(MAX_RETRIES)`, one
HTTP attempt per iteration, returning on the first 200/201.  `outcomes n`
is whether the `n`-th attempt (0-based) succeeds; the second component of
the result counts attempts actually made. -/
def call_api_loop (outcomes : Nat → Bool) : Nat → Nat → Bool × Nat
  | 0, used => (false, used)
  | n + 1, used =>
    if outcomes used then (true, used + 1)
    else call_api_loop outcomes n (used + 1)

/-- Model of `call_api`: up to `MAX_RETRIES` attempts, `(success, attempts made)`. -/
def call_api (cfg : Config) (outcomes : Nat → Bool) : Bool × Nat :=
  call_api_loop outcomes cfg.maxRetries 0

/-- Outcome of the `/api/sensors/register` handler. -/
inductive RegResult : Type
  | forwarded : RegResult
  | queued (offlineId : Nat) : RegResult
deriving DecidableEq

/-- Model of `handle_sensor_registration`: try the Database Pi API via `call_api`;
on success relay the response (200); otherwise save the registration to the
offline queue with destination `'api'` and answer 202.  The last component
is the number of direct API attempts made. -/
def handle_sensor_registration (cfg : Config) (outcomes : Nat → Bool)
    (payload : String) (s : OfflineStorage) : RegResult × OfflineStorage × Nat :=
  let c := call_api cfg outcomes
  if c.1 then (.forwarded, s, c.2)
  else
    let r := save_offline cfg s "/api/sensors/register" payload .api
    (.queued r.2, r.1, c.2)

/-- The four ways `handle_assignment_check` can answer. -/
inductive AssignmentResponse : Type
  | okFromApi : AssignmentResponse
  | okFromDb (info : AssignmentInfo) : AssignmentResponse
  | notFound : AssignmentResponse
  | unavailable : AssignmentResponse
deriving DecidableEq

/-- Model of `handle_assignment_check` (GET `/api/sensors/<id>/assignment`): first
`call_api`; on failure fall back to a direct `get_sensor_assignment`
against MySQL: a dictionary gives 200, `None` gives 404 ("Sensor not
found"), and an escaping exception gives 503 ("API and MySQL
unavailable").  The handler never touches the offline queue, which the
returned state reflects. -/
def handle_assignment_check (cfg : Config) (outcomes : Nat → Bool)
    (machineId : String) (lookup : DbResult (Option SensorRow))
    (s : OfflineStorage) : AssignmentResponse × OfflineStorage :=
  let c := call_api cfg outcomes
  if c.1 then (.okFromApi, s)
  else
    match get_sensor_assignment machineId lookup with
    | .ok (some info) => (.okFromDb info, s)
    | .ok none => (.notFound, s)
    | .error _ => (.unavailable, s)

/-! ## The resynchronisation cycle -/

/-- The statistic the resync loop maintains (`gateway_stats['offline_synced']`). -/
structure Stats where
  offline_synced : Nat
deriving DecidableEq

/-- The per-record loop of `process_offline_queue` over one drained batch.
`deliver r` is the outcome of redelivering record `r` upstream (MySQL
insert, or `call_api` for api-bound rows).  Success runs
`update_attempt(id, True)` and bumps the synced counter; failure runs
`update_attempt(id, False)` and the loop continues with the next record.
A `none` from `update_attempt` is an exception propagating to the cycle's
outer `except`, aborting the whole cycle.  The returned list logs the ids
for which a redelivery was attempted, in order. -/
def process_records (deliver : Record → Bool) :
    List Record → OfflineStorage → Stats → Option (OfflineStorage × Stats × List Nat)
  | [], s, st => some (s, st, [])
  | r :: rs, s, st =>
    if deliver r then
      match update_attempt s r.id true with
      | some s1 =>
        match process_records deliver rs s1 { offline_synced := st.offline_synced + 1 } with
        | some (s2, st2, log) => some (s2, st2, r.id :: log)
        | none => none
      | none => none
    else
      match update_attempt s r.id false with
      | some s1 =>
        match process_records deliver rs s1 st with
        | some (s2, st2, log) => some (s2, st2, r.id :: log)
        | none => none
      | none => none

/-- One iteration of the body of `process_offline_queue`: for each
destination, check health (the boolean arguments are the probe results at
cycle start); if healthy, drain up to `BATCH_SIZE` pending records and
process them.  The MySQL branch runs first; the api branch reads the queue
state it left behind. -/
def process_offline_queue_cycle (cfg : Config) (mysqlHealthy apiHealthy : Bool)
    (deliverMysql deliverApi : Record → Bool) (s : OfflineStorage) (st : Stats) :
    Option (OfflineStorage × Stats × List Nat) :=
  Option.bind
    (if mysqlHealthy then
      process_records deliverMysql (get_pending_records cfg s .mysql cfg.batchSize) s st
     else some (s, st, []))
    fun a =>
      Option.bind
        (if apiHealthy then
          process_records deliverApi (get_pending_records cfg a.1 .api cfg.batchSize) a.1 a.2.1
         else some (a.1, a.2.1, []))
        fun b => some (b.1, b.2.1, a.2.2 ++ b.2.2)

/-! ## Facts about pending batches and the drain loop -/

/-- On a well-formed state the `ORDER BY` of `get_pending_records` is the
identity, so the batch is the first `limit` matching rows in creation
order. -/
theorem get_pending_records_eq (cfg : Config) (s : OfflineStorage)
    (d : Destination) (l : Nat) (hinv : Inv s) :
    get_pending_records cfg s d l
      = ((s.queue.filter fun r =>
          decide (r.attempts < cfg.maxRetries) && decide (r.destination = d)).take l) := by
  rw [get_pending_records,
    insertionSort_eq_self (List.Pairwise.sublist (List.filter_sublist _) hinv.1)]

theorem get_pending_records_pairwise (cfg : Config) (s : OfflineStorage)
    (d : Destination) (l : Nat) (hinv : Inv s) :
    (get_pending_records cfg s d l).Pairwise RowLT := by
  rw [get_pending_records_eq cfg s d l hinv]
  exact List.Pairwise.sublist
    ((List.take_sublist _ _).trans (List.filter_sublist _)) hinv.1

theorem get_pending_records_mem {cfg : Config} {s : OfflineStorage}
    {d : Destination} {l : Nat} {r : Record}
    (hr : r ∈ get_pending_records cfg s d l) :
    r ∈ s.queue ∧ r.attempts < cfg.maxRetries ∧ r.destination = d := by
  rw [get_pending_records] at hr
  have hr1 := (List.mem_insertionSort timeLE).mp (List.mem_of_mem_take hr)
  rcases List.mem_filter.mp hr1 with ⟨hmem, hpred⟩
  rcases Bool.and_eq_true_iff.mp hpred with ⟨h1, h2⟩
  exact ⟨hmem, of_decide_eq_true h1, of_decide_eq_true h2⟩

theorem get_pending_records_nodup (cfg : Config) (s : OfflineStorage)
    (d : Destination) (l : Nat) (hinv : Inv s) :
    ((get_pending_records cfg s d l).map Record.id).Nodup := by
  have hpw := get_pending_records_pairwise cfg s d l hinv
  exact List.Pairwise.imp Nat.ne_of_lt
    (List.pairwise_map.mpr (hpw.imp fun hab => hab.1))

theorem get_pending_records_length (cfg : Config) (s : OfflineStorage)
    (d : Destination) (l : Nat) :
    (get_pending_records cfg s d l).length ≤ l := by
  rw [get_pending_records]
  exact List.length_take_le _ _

/-- Refiltering after an id-based delete changes nothing when every row the
predicate keeps has a different id. -/
theorem filter_filter_keep {l : List Record} {keep p : Record → Bool}
    (h : ∀ a ∈ l, p a = true → keep a = true) :
    (l.filter keep).filter p = l.filter p := by
  rw [List.filter_filter]
  refine List.filter_congr fun a ha => ?_
  cases hp : p a
  · simp
  · simp [h a ha hp]

/-- Refiltering after an id-based bump changes nothing when the predicate
ignores the bumped fields and every row it keeps has a different id. -/
theorem filter_map_bump {l : List Record} {p : Record → Bool} (i t : Nat)
    (hp : ∀ a : Record, p (bumpIfId i t a) = p a)
    (hfix : ∀ a ∈ l, p a = true → bumpIfId i t a = a) :
    (l.map (bumpIfId i t)).filter p = l.filter p := by
  induction l with
  | nil => rfl
  | cons a l ih =>
    rw [List.map_cons, List.filter_cons, List.filter_cons, hp a]
    cases hpa : p a
    · rw [if_neg Bool.false_ne_true, if_neg Bool.false_ne_true]
      exact ih fun b hb hpb => hfix b (List.mem_cons_of_mem a hb) hpb
    · rw [if_pos rfl, if_pos rfl, hfix a (List.mem_cons_self a l) hpa,
        ih fun b hb hpb => hfix b (List.mem_cons_of_mem a hb) hpb]

/-- Master lemma for one drained batch: when every record handed to the
loop is a live row (present, with pairwise-distinct ids), the loop never
aborts, attempts delivery of every record exactly once in order, deletes
exactly the delivered rows, bumps exactly the failed rows, leaves every
other row untouched, and adds the number of successes to the synced
counter. -/
theorem process_records_spec (deliver : Record → Bool) (recs : List Record)
    (s : OfflineStorage) (st : Stats)
    (hinv : Inv s)
    (hsub : ∀ r ∈ recs, r ∈ s.queue)
    (hnd : (recs.map Record.id).Nodup) :
    ∃ s' st',
      process_records deliver recs s st = some (s', st', recs.map Record.id) ∧
      Inv s' ∧
      s'.nextId = s.nextId ∧
      st'.offline_synced = st.offline_synced + (recs.filter deliver).length ∧
      (∀ r ∈ recs, deliver r = true → ∀ q ∈ s'.queue, q.id ≠ r.id) ∧
      (∀ r ∈ recs, deliver r = false →
        ∃ q ∈ s'.queue, q.id = r.id ∧ q.attempts = r.attempts + 1 ∧
          q.destination = r.destination ∧ q.last_attempt.isSome = true) ∧
      (∀ q ∈ s'.queue, ∃ q0 ∈ s.queue, q0.id = q.id) ∧
      (∀ q0 ∈ s.queue, (∀ r ∈ recs, r.id ≠ q0.id) → q0 ∈ s'.queue) ∧
      (∀ d0 : Destination, (∀ r ∈ recs, r.destination ≠ d0) →
        s'.queue.filter (fun q => decide (q.destination = d0))
          = s.queue.filter (fun q => decide (q.destination = d0))) := by
  induction recs generalizing s st with
  | nil =>
    refine ⟨s, st, rfl, hinv, rfl, by simp, by simp, by simp, ?_, ?_, ?_⟩
    · intro q hq; exact ⟨q, hq, rfl⟩
    · intro q0 hq0 _; exact hq0
    · intro d0 _; rfl
  | cons r rs ih =>
    have hr : r ∈ s.queue := hsub r (List.mem_cons_self r rs)
    have hrs : ∀ q ∈ rs, q ∈ s.queue := fun q hq => hsub q (List.mem_cons_of_mem r hq)
    rw [List.map_cons, List.nodup_cons] at hnd
    have hne : ∀ q ∈ rs, q.id ≠ r.id := by
      intro q hq h
      exact hnd.1 (h ▸ List.mem_map_of_mem Record.id hq)
    cases hd : deliver r with
    | true =>
      have hup := update_attempt_true s r.id
      set s1 : OfflineStorage :=
        { s with queue := s.queue.filter fun q => decide (q.id ≠ r.id),
                 clock := s.clock + 1 } with hs1
      have hinv1 : Inv s1 := inv_update_attempt hinv hup
      have hsub1 : ∀ q ∈ rs, q ∈ s1.queue := by
        intro q hq
        exact List.mem_filter.mpr ⟨hrs q hq, decide_eq_true (hne q hq)⟩
      rcases ih s1 { offline_synced := st.offline_synced + 1 } hinv1 hsub1 hnd.2 with
        ⟨s2, st2, hrun, hinv2, hnext, hsync, hdel, hbump, hold, hkeep, hfilt⟩
      refine ⟨s2, st2, ?_, hinv2, hnext.trans rfl, ?_, ?_, ?_, ?_, ?_, ?_⟩
      · have hstep : process_records deliver (r :: rs) s st
            = match process_records deliver rs s1 { offline_synced := st.offline_synced + 1 } with
              | some (s2, st2, log) => some (s2, st2, r.id :: log)
              | none => none := by
          rw [process_records, hd, if_pos rfl, hup]
        rw [hstep, hrun, List.map_cons]
      · have hsync2 : st2.offline_synced
            = st.offline_synced + 1 + (List.filter deliver rs).length := hsync
        rw [List.filter_cons_of_pos hd, List.length_cons]
        omega
      · intro r' hr' hd' q hq
        rcases List.mem_cons.mp hr' with rfl | hr'
        · rcases hold q hq with ⟨q0, hq0, hq0id⟩
          have := of_decide_eq_true (List.mem_filter.mp hq0).2
          rw [← hq0id]; exact this
        · exact hdel r' hr' hd' q hq
      · intro r' hr' hd'
        rcases List.mem_cons.mp hr' with rfl | hr'
        · rw [hd] at hd'; cases hd'
        · exact hbump r' hr' hd'
      · intro q hq
        rcases hold q hq with ⟨q0, hq0, hq0id⟩
        exact ⟨q0, (List.mem_filter.mp hq0).1, hq0id⟩
      · intro q0 hq0 hdisj
        have hq0ne : q0.id ≠ r.id := fun h =>
          hdisj r (List.mem_cons_self r rs) h.symm
        refine hkeep q0 ?_ ?_
        · exact List.mem_filter.mpr ⟨hq0, decide_eq_true hq0ne⟩
        · intro r' hr'
          exact hdisj r' (List.mem_cons_of_mem r hr')
      · intro d0 hd0
        rw [hfilt d0 fun r' hr' => hd0 r' (List.mem_cons_of_mem r hr')]
        refine filter_filter_keep fun a ha hpa => decide_eq_true fun haid => ?_
        have : a = r := mem_id_inj hinv.1 a ha r hr haid
        exact hd0 r (List.mem_cons_self r rs) (this ▸ of_decide_eq_true hpa)
    | false =>
      have hup := update_attempt_false_of_mem (s := s) (i := r.id) ⟨r, hr, rfl⟩
      set s1 : OfflineStorage :=
        { s with queue := s.queue.map (bumpIfId r.id s.clock),
                 clock := s.clock + 1 } with hs1
      have hinv1 : Inv s1 := inv_update_attempt hinv hup
      have hsub1 : ∀ q ∈ rs, q ∈ s1.queue := by
        intro q hq
        have : bumpIfId r.id s.clock q = q := bumpIfId_of_ne s.clock (hne q hq)
        rw [hs1]
        exact this ▸ List.mem_map_of_mem (bumpIfId r.id s.clock) (hrs q hq)
      rcases ih s1 st hinv1 hsub1 hnd.2 with
        ⟨s2, st2, hrun, hinv2, hnext, hsync, hdel, hbump, hold, hkeep, hfilt⟩
      refine ⟨s2, st2, ?_, hinv2, hnext.trans rfl, ?_, ?_, ?_, ?_, ?_, ?_⟩
      · have hstep : process_records deliver (r :: rs) s st
            = match process_records deliver rs s1 st with
              | some (s2, st2, log) => some (s2, st2, r.id :: log)
              | none => none := by
          rw [process_records, hd, if_neg Bool.false_ne_true, hup]
        rw [hstep, hrun, List.map_cons]
      · rw [hsync, List.filter_cons_of_neg (by simp [hd])]
      · intro r' hr' hd' q hq
        rcases List.mem_cons.mp hr' with rfl | hr'
        · rw [hd] at hd'; cases hd'
        · exact hdel r' hr' hd' q hq
      · intro r' hr' hd'
        rcases List.mem_cons.mp hr' with hre | hr'
        · rw [hre]
          have hmem1 : bumpIfId r.id s.clock r ∈ s1.queue :=
            List.mem_map_of_mem (bumpIfId r.id s.clock) hr
          have hmem2 : bumpIfId r.id s.clock r ∈ s2.queue := by
            refine hkeep _ hmem1 ?_
            intro q hq
            rw [bumpIfId_id]
            exact hne q hq
          refine ⟨bumpIfId r.id s.clock r, hmem2, ?_⟩
          rw [bumpIfId_of_eq s.clock rfl]
          exact ⟨rfl, rfl, rfl, rfl⟩
        · exact hbump r' hr' hd'
      · intro q hq
        rcases hold q hq with ⟨q1, hq1, hq1id⟩
        rcases List.mem_map.mp hq1 with ⟨q0, hq0, rfl⟩
        exact ⟨q0, hq0, by rw [← hq1id, bumpIfId_id]⟩
      · intro q0 hq0 hdisj
        have hq0ne : q0.id ≠ r.id := fun h =>
          hdisj r (List.mem_cons_self r rs) h.symm
        refine hkeep q0 ?_ ?_
        · have : bumpIfId r.id s.clock q0 = q0 := bumpIfId_of_ne s.clock hq0ne
          exact this ▸ List.mem_map_of_mem (bumpIfId r.id s.clock) hq0
        · intro r' hr'
          exact hdisj r' (List.mem_cons_of_mem r hr')
      · intro d0 hd0
        rw [hfilt d0 fun r' hr' => hd0 r' (List.mem_cons_of_mem r hr')]
        refine filter_map_bump r.id s.clock (fun a => by rw [bumpIfId_destination])
          fun a ha hpa => bumpIfId_of_ne s.clock fun haid => ?_
        have : a = r := mem_id_inj hinv.1 a ha r hr haid
        exact hd0 r (List.mem_cons_self r rs) (this ▸ of_decide_eq_true hpa)

/-- A cycle is the sequential composition of its two health-gated phases. -/
theorem cycle_eq (cfg : Config) (mh ah : Bool) (dm da : Record → Bool)
    (s : OfflineStorage) (st : Stats)
    {s1 : OfflineStorage} {st1 : Stats} {log1 : List Nat}
    (h1 : (if mh then
            process_records dm (get_pending_records cfg s .mysql cfg.batchSize) s st
           else some (s, st, [])) = some (s1, st1, log1))
    {s2 : OfflineStorage} {st2 : Stats} {log2 : List Nat}
    (h2 : (if ah then
            process_records da (get_pending_records cfg s1 .api cfg.batchSize) s1 st1
           else some (s1, st1, [])) = some (s2, st2, log2)) :
    process_offline_queue_cycle cfg mh ah dm da s st = some (s2, st2, log1 ++ log2) := by
  rw [process_offline_queue_cycle, h1, Option.some_bind]
  simp only []
  rw [h2, Option.some_bind]

/-- The loop of `call_api` never makes more than `MAX_RETRIES` attempts. -/
theorem call_api_loop_le (outcomes : Nat → Bool) (n used : Nat) :
    (call_api_loop outcomes n used).2 ≤ used + n := by
  induction n generalizing used with
  | zero => exact Nat.le_refl _
  | succ n ih =>
    rw [call_api_loop]
    cases outcomes used
    · rw [if_neg Bool.false_ne_true]
      exact Nat.le_trans (ih (used + 1)) (by omega)
    · rw [if_pos rfl]
      omega

/-- If every attempt fails, `call_api_loop` uses its whole budget and fails. -/
theorem call_api_loop_all_fail (outcomes : Nat → Bool)
    (h : ∀ n, outcomes n = false) (n used : Nat) :
    call_api_loop outcomes n used = (false, used + n) := by
  induction n generalizing used with
  | zero => rfl
  | succ n ih =>
    rw [call_api_loop, h used, if_neg Bool.false_ne_true, ih (used + 1)]
    rw [Prod.mk.injEq]
    exact ⟨rfl, by omega⟩

theorem call_api_all_fail (cfg : Config) (outcomes : Nat → Bool)
    (h : ∀ n, outcomes n = false) :
    call_api cfg outcomes = (false, cfg.maxRetries) := by
  rw [call_api, call_api_loop_all_fail outcomes h, Nat.zero_add]

/-! ## Exhausted records -/

/-- Exhaustedness of an id: the record with id `i`, if still present, is
exhausted — its attempts
are at or past `MAX_RETRIES`, and the id counter is already past `i`, so no
later append can reuse the id. -/
def ExhaustedAt (cfg : Config) (i : Nat) (s : OfflineStorage) : Prop :=
  i < s.nextId ∧ ∀ q ∈ s.queue, q.id = i → cfg.maxRetries ≤ q.attempts

/-- Whatever the eviction decides, `save_offline` only keeps rows of the
post-insert table. -/
theorem save_offline_queue_sublist (cfg : Config) (s : OfflineStorage)
    (e p : String) (d : Destination) :
    (save_offline cfg s e p d).1.queue.Sublist (s.queue ++ [newRecord s e p d]) := by
  simp only [save_offline]
  split
  · exact List.filter_sublist _
  · exact List.Sublist.refl _

theorem exhaustedAt_applyOp (cfg : Config) (i : Nat) {s : OfflineStorage}
    (op : QueueOp) (h : ExhaustedAt cfg i s) :
    ExhaustedAt cfg i (applyOp cfg s op) := by
  rcases h with ⟨hlt, hq⟩
  cases op with
  | append e p d =>
    simp only [applyOp]
    constructor
    · rw [save_offline_nextId]
      exact Nat.lt_succ_of_lt hlt
    · intro q hql hqi
      rcases List.mem_append.mp ((save_offline_queue_sublist cfg s e p d).mem hql) with
        hmem | hmem
      · exact hq q hmem hqi
      · rw [List.mem_singleton.mp hmem] at hqi
        exact absurd hqi (Nat.ne_of_gt hlt)
  | complete j =>
    simp only [applyOp, update_attempt_true, Option.getD_some]
    refine ⟨hlt, fun q hql hqi => ?_⟩
    exact hq q ((List.filter_sublist _).mem hql) hqi
  | fail j =>
    simp only [applyOp]
    rcases hu : update_attempt s j false with _ | s'
    · simpa [Option.getD_none] using ⟨hlt, hq⟩
    · rw [Option.getD_some]
      simp only [update_attempt] at hu
      rcases hfind : (s.queue.map (bumpIfId j s.clock)).find? fun r => decide (r.id = j)
          with _ | w <;> rw [hfind] at hu
      · exact absurd hu (by simp)
      · rw [Option.some_inj] at hu
        subst hu
        refine ⟨hlt, fun q hql hqi => ?_⟩
        rcases List.mem_map.mp hql with ⟨q0, hq0, rfl⟩
        rw [bumpIfId_id] at hqi
        have := hq q0 hq0 hqi
        rw [bumpIfId]
        split
        · exact Nat.le_succ_of_le this
        · exact this

theorem exhaustedAt_runFrom (cfg : Config) (i : Nat) {s : OfflineStorage}
    (ops : List QueueOp) (h : ExhaustedAt cfg i s) :
    ExhaustedAt cfg i (runFrom cfg s ops) := by
  induction ops generalizing s with
  | nil => exact h
  | cons op ops ih =>
    rw [runFrom, List.foldl_cons]
    exact ih (exhaustedAt_applyOp cfg i op h)

/-- An exhausted id is invisible to `get_pending_records`. -/
theorem exhaustedAt_not_pending (cfg : Config) (i : Nat) {s : OfflineStorage}
    (h : ExhaustedAt cfg i s) (d : Destination) (l : Nat) :
    ∀ q ∈ get_pending_records cfg s d l, q.id ≠ i := by
  intro q hq hqi
  rcases get_pending_records_mem hq with ⟨hmem, hatt, _⟩
  exact absurd (h.2 q hmem hqi) (Nat.not_le_of_lt hatt)

/-- On a well-formed, within-capacity state the freshly appended row always
survives the eviction (it is the newest row). -/
theorem newRecord_mem_save_offline (cfg : Config) {s : OfflineStorage}
    (e p : String) (d : Destination) (hinv : Inv s)
    (hlen : s.queue.length ≤ cfg.maxOfflineRecords)
    (hpos : 1 ≤ cfg.maxOfflineRecords) :
    newRecord s e p d ∈ (save_offline cfg s e p d).1.queue := by
  rw [save_offline_queue cfg s e p d hinv]
  have hk : s.queue.length + 1 - cfg.maxOfflineRecords ≤ s.queue.length := by omega
  rw [List.drop_append_of_le_length hk]
  exact List.mem_append_right _ (List.mem_singleton.mpr rfl)

/-! ## The claims -/

/-- A small configuration (`MaxOfflineRecords = 2`, everything else as in the
source) used to exercise the eviction path on concrete inputs. -/
def cfgSmall : Config :=
  { maxOfflineRecords := 2, maxRetries := 3, retryDelay := 5,
    apiTimeout := 10, batchSize := 50 }

/-- C1: over every sequence of append/complete/fail operations the queue
never exceeds `MAX_OFFLINE_RECORDS` rows, and whenever an append evicts,
every evicted row was created strictly before every surviving row — the
eviction removes exactly the globally oldest rows by `created_at`,
irrespective of destination or attempts. -/
theorem c1_capacity_bound_and_oldest_eviction (cfg : Config) (ops : List QueueOp)
    (e p : String) (d : Destination) :
    (run cfg ops).queue.length ≤ cfg.maxOfflineRecords ∧
    (∀ r ∈ (run cfg ops).queue ++ [newRecord (run cfg ops) e p d],
      r ∉ (save_offline cfg (run cfg ops) e p d).1.queue →
      ∀ r' ∈ (save_offline cfg (run cfg ops) e p d).1.queue,
        r.timestamp < r'.timestamp) := by
  obtain ⟨hinv, hlen⟩ := inv_run cfg ops
  refine ⟨hlen, ?_⟩
  intro r hr hnot r' hr'
  rw [save_offline_queue cfg (run cfg ops) e p d hinv] at hnot hr'
  have hpw : ((run cfg ops).queue ++ [newRecord (run cfg ops) e p d]).Pairwise RowLT :=
    pairwise_insert hinv e p d
  have hsplit :
      ((run cfg ops).queue ++ [newRecord (run cfg ops) e p d]).take
          ((run cfg ops).queue.length + 1 - cfg.maxOfflineRecords)
        ++ ((run cfg ops).queue ++ [newRecord (run cfg ops) e p d]).drop
          ((run cfg ops).queue.length + 1 - cfg.maxOfflineRecords)
        = (run cfg ops).queue ++ [newRecord (run cfg ops) e p d] :=
    List.take_append_drop _ _
  have hpw2 : (((run cfg ops).queue ++ [newRecord (run cfg ops) e p d]).take
          ((run cfg ops).queue.length + 1 - cfg.maxOfflineRecords)
        ++ ((run cfg ops).queue ++ [newRecord (run cfg ops) e p d]).drop
          ((run cfg ops).queue.length + 1 - cfg.maxOfflineRecords)).Pairwise RowLT := by
    rw [hsplit]; exact hpw
  have hcross := (List.pairwise_append.mp hpw2).2.2
  have hr2 : r ∈ ((run cfg ops).queue ++ [newRecord (run cfg ops) e p d]).take
          ((run cfg ops).queue.length + 1 - cfg.maxOfflineRecords)
        ++ ((run cfg ops).queue ++ [newRecord (run cfg ops) e p d]).drop
          ((run cfg ops).queue.length + 1 - cfg.maxOfflineRecords) := by
    rw [hsplit]; exact hr
  rcases List.mem_append.mp hr2 with htk | hdk
  · exact (hcross r htk r' hr').2
  · exact absurd hdk hnot

/-- Witness for C1: a run of two appends under `cfgSmall` stays within the
bound, and a third append evicts the oldest row (created at time 1) while
the newest surviving row was created later (time 2). -/
theorem c1_capacity_bound_and_oldest_eviction_witness :
    (run cfgSmall [QueueOp.append "e1" "p1" Destination.mysql,
                   QueueOp.append "e2" "p2" Destination.api]).queue.length
        ≤ cfgSmall.maxOfflineRecords ∧
    ({ id := 1, endpoint := "e1", data := "p1", timestamp := 1, attempts := 0,
       last_attempt := none, destination := Destination.mysql } : Record).timestamp
      < ({ id := 2, endpoint := "e2", data := "p2", timestamp := 2, attempts := 0,
           last_attempt := none, destination := Destination.api } : Record).timestamp :=
  ⟨(c1_capacity_bound_and_oldest_eviction cfgSmall
      [QueueOp.append "e1" "p1" Destination.mysql,
       QueueOp.append "e2" "p2" Destination.api] "e3" "p3" Destination.mysql).1,
   (c1_capacity_bound_and_oldest_eviction cfgSmall
      [QueueOp.append "e1" "p1" Destination.mysql,
       QueueOp.append "e2" "p2" Destination.api] "e3" "p3" Destination.mysql).2
     { id := 1, endpoint := "e1", data := "p1", timestamp := 1, attempts := 0,
       last_attempt := none, destination := Destination.mysql }
     (by decide) (by decide)
     { id := 2, endpoint := "e2", data := "p2", timestamp := 2, attempts := 0,
       last_attempt := none, destination := Destination.api }
     (by decide)⟩

/-- C2 counterexample: a sensor-data write whose machine id has no
assignment row raises the "not assigned" exception, yet the dispatcher
catches it and appends the write to the offline queue — the queue grows
from empty to one row and the caller is told it was stored offline, so the
request is neither rejected nor kept out of the Durable Queue. -/
theorem c2_counterexample :
    insert_sensor_data "S1" (DbResult.ok none) (DbResult.ok 7)
      = Except.error InsertError.notAssigned ∧
    (process_sensor_data Config.source "S1" "d" (DbResult.ok none) (DbResult.ok 7)
        OfflineStorage.init).1 = ProcessResult.queuedOffline 1 ∧
    (process_sensor_data Config.source "S1" "d" (DbResult.ok none) (DbResult.ok 7)
        OfflineStorage.init).2.1.queue.length = 1 :=
  ⟨rfl, rfl, rfl⟩

/-- C2 (amended): a sensor-data write failing semantic validation (an
unassigned machine id) is indeed never retried directly — but it is not
rejected either: the dispatcher catches the exception like any transient
failure and appends the record to the Durable Queue, answering
stored-offline with the new queue id. -/
theorem c2_unassigned_write_is_queued (cfg : Config) (mid p : String)
    (lookup : DbResult (Option SensorRow)) (ins : DbResult Nat)
    (s : OfflineStorage)
    (h : insert_sensor_data mid lookup ins = .error .notAssigned) :
    process_sensor_data cfg mid p lookup ins s
      = (.queuedOffline s.nextId, (save_offline cfg s "/api/sensor-data" p .mysql).1, 1) ∧
    (Inv s → s.queue.length ≤ cfg.maxOfflineRecords → 1 ≤ cfg.maxOfflineRecords →
      newRecord s "/api/sensor-data" p .mysql
        ∈ (process_sensor_data cfg mid p lookup ins s).2.1.queue) := by
  have hmain : process_sensor_data cfg mid p lookup ins s
      = (.queuedOffline s.nextId, (save_offline cfg s "/api/sensor-data" p .mysql).1, 1) := by
    rw [process_sensor_data, h]
    rfl
  refine ⟨hmain, fun hinv hlen hpos => ?_⟩
  rw [hmain]
  exact newRecord_mem_save_offline cfg "/api/sensor-data" p .mysql hinv hlen hpos

/-- Witness for C2 (amended) at a concrete unassigned write. -/
theorem c2_unassigned_write_is_queued_witness :
    process_sensor_data Config.source "S7" "d7" (DbResult.ok none) DbResult.dbError
        OfflineStorage.init
      = (.queuedOffline 1,
         (save_offline Config.source OfflineStorage.init "/api/sensor-data" "d7" .mysql).1,
         1) ∧
    newRecord OfflineStorage.init "/api/sensor-data" "d7" Destination.mysql
      ∈ (process_sensor_data Config.source "S7" "d7" (DbResult.ok none) DbResult.dbError
          OfflineStorage.init).2.1.queue :=
  ⟨(c2_unassigned_write_is_queued Config.source "S7" "d7" (DbResult.ok none)
      DbResult.dbError OfflineStorage.init rfl).1,
   (c2_unassigned_write_is_queued Config.source "S7" "d7" (DbResult.ok none)
      DbResult.dbError OfflineStorage.init rfl).2
     (by decide) (by decide) (by decide)⟩

/-- C3 counterexample: a valid, assigned sensor whose direct MySQL insert
fails is queued offline after exactly one direct attempt — not after
`MAX_RETRIES = 3` attempts as the claim states for every write-shaped
record. -/
theorem c3_counterexample :
    (process_sensor_data Config.source "S1" "d"
        (DbResult.ok (some { farm_id := some 1, zone_code := "A" }))
        DbResult.dbError OfflineStorage.init).2.2 = 1 ∧
    1 < Config.source.maxRetries ∧
    (process_sensor_data Config.source "S1" "d"
        (DbResult.ok (some { farm_id := some 1, zone_code := "A" }))
        DbResult.dbError OfflineStorage.init).1 = ProcessResult.queuedOffline 1 :=
  ⟨rfl, by decide, rfl⟩

/-- C3 (amended): the bounded retry loop exists only for api-destined
writes.  `call_api` makes at most `MAX_RETRIES` attempts; a registration
whose attempts all fail is queued only after exactly `MAX_RETRIES`
attempts, and one that succeeds is never queued; a storage-destined sensor
write instead makes exactly one direct attempt and is queued as soon as
that single attempt fails. -/
theorem c3_retry_policy (cfg : Config) (outcomes : Nat → Bool) (p : String)
    (s : OfflineStorage) (mid : String) (lookup : DbResult (Option SensorRow))
    (ins : DbResult Nat) :
    (handle_sensor_registration cfg outcomes p s).2.2 ≤ cfg.maxRetries ∧
    ((∀ n, outcomes n = false) →
      handle_sensor_registration cfg outcomes p s
        = (.queued s.nextId, (save_offline cfg s "/api/sensors/register" p .api).1,
           cfg.maxRetries)) ∧
    ((call_api cfg outcomes).1 = true →
      (handle_sensor_registration cfg outcomes p s).2.1 = s) ∧
    (process_sensor_data cfg mid p lookup ins s).2.2 = 1 ∧
    (∀ err, insert_sensor_data mid lookup ins = .error err →
      (process_sensor_data cfg mid p lookup ins s).2.1
        = (save_offline cfg s "/api/sensor-data" p .mysql).1) := by
  refine ⟨?_, ?_, ?_, ?_, ?_⟩
  · rw [handle_sensor_registration]
    cases hc : (call_api cfg outcomes).1
    · rw [if_neg Bool.false_ne_true]
      have := call_api_loop_le outcomes cfg.maxRetries 0
      rw [Nat.zero_add] at this
      exact this
    · rw [if_pos rfl]
      have := call_api_loop_le outcomes cfg.maxRetries 0
      rw [Nat.zero_add] at this
      exact this
  · intro hfail
    rw [handle_sensor_registration, call_api_all_fail cfg outcomes hfail,
      if_neg Bool.false_ne_true]
    rfl
  · intro hc
    rw [handle_sensor_registration]
    rcases hca : call_api cfg outcomes with ⟨b, n⟩
    rw [hca] at hc
    have hb : b = true := hc
    subst hb
    rw [if_pos rfl]
  · rcases hi : insert_sensor_data mid lookup ins with v | err <;>
      rw [process_sensor_data, hi]
  · intro err hi
    rw [process_sensor_data, hi]

/-- Witness for C3 (amended): with every attempt failing, a registration is
queued after exactly 3 attempts, and a failing sensor write after exactly
one. -/
theorem c3_retry_policy_witness :
    handle_sensor_registration Config.source (fun _ => false) "reg"
        OfflineStorage.init
      = (.queued 1,
         (save_offline Config.source OfflineStorage.init "/api/sensors/register"
           "reg" .api).1, Config.source.maxRetries) ∧
    (process_sensor_data Config.source "S1" "reg" (DbResult.ok none)
        DbResult.dbError OfflineStorage.init).2.2 = 1 :=
  ⟨(c3_retry_policy Config.source (fun _ => false) "reg" OfflineStorage.init
      "S1" (DbResult.ok none) DbResult.dbError).2.1 (fun _ => rfl),
   (c3_retry_policy Config.source (fun _ => false) "reg" OfflineStorage.init
      "S1" (DbResult.ok none) DbResult.dbError).2.2.2.1⟩

/-- C5: for a record `r` present in the queue, `fail(r.id)` increments its
attempts by exactly one and stamps `last_attempt`, leaving it in the queue
(the queue length is unchanged, so it still counts toward the capacity
bound); and as soon as its attempts reach `MAX_RETRIES`, no later
`get_pending_records` result — for any destination, any limit, after any
further sequence of queue operations — ever contains its id again. -/
theorem c5_fail_increments_and_hides (cfg : Config) (s : OfflineStorage)
    (r : Record) (hinv : Inv s) (hr : r ∈ s.queue) :
    update_attempt s r.id false
      = some { s with queue := s.queue.map (bumpIfId r.id s.clock),
                      clock := s.clock + 1 } ∧
    { r with attempts := r.attempts + 1, last_attempt := some s.clock }
        ∈ (s.queue.map (bumpIfId r.id s.clock)) ∧
    (s.queue.map (bumpIfId r.id s.clock)).length = s.queue.length ∧
    (r.attempts + 1 = cfg.maxRetries →
      ∀ (ops : List QueueOp) (d : Destination) (l : Nat),
        ∀ q ∈ get_pending_records cfg
            (runFrom cfg { s with queue := s.queue.map (bumpIfId r.id s.clock),
                                  clock := s.clock + 1 } ops) d l,
          q.id ≠ r.id) := by
  refine ⟨update_attempt_false_of_mem ⟨r, hr, rfl⟩, ?_, List.length_map _ _, ?_⟩
  · have := List.mem_map_of_mem (bumpIfId r.id s.clock) hr
    rwa [bumpIfId_of_eq s.clock rfl] at this
  · intro hmax ops d l
    have hex : ExhaustedAt cfg r.id
        { s with queue := s.queue.map (bumpIfId r.id s.clock),
                 clock := s.clock + 1 } := by
      refine ⟨hinv.2.1 r hr, ?_⟩
      intro q hq hqi
      rcases List.mem_map.mp hq with ⟨q0, hq0, rfl⟩
      rw [bumpIfId_id] at hqi
      have : q0 = r := mem_id_inj hinv.1 q0 hq0 r hr hqi
      subst this
      rw [bumpIfId_of_eq s.clock rfl]
      exact Nat.le_of_eq hmax.symm
    exact exhaustedAt_not_pending cfg r.id
      (exhaustedAt_runFrom cfg r.id ops hex) d l

/-- Witness for C5: a row with two failed attempts; a third failure bumps
it to `MAX_RETRIES` and it disappears from the pending view while staying
in the table. -/
theorem c5_fail_increments_and_hides_witness :
    (update_attempt { queue := [{ id := 1, endpoint := "e", data := "p",
                                  timestamp := 1, attempts := 2, last_attempt := none,
                                  destination := Destination.mysql }],
                      nextId := 2, clock := 5 } 1 false
      = some { queue := [{ id := 1, endpoint := "e", data := "p", timestamp := 1,
                           attempts := 3, last_attempt := some 5,
                           destination := Destination.mysql }],
               nextId := 2, clock := 6 }) ∧
    ({ id := 1, endpoint := "e", data := "p", timestamp := 1,
       attempts := 3, last_attempt := some 5,
       destination := Destination.mysql } : Record)
      ∉ get_pending_records Config.source
          (runFrom Config.source
            { queue := [{ id := 1, endpoint := "e", data := "p", timestamp := 1,
                          attempts := 3, last_attempt := some 5,
                          destination := Destination.mysql }],
              nextId := 2, clock := 6 } []) Destination.mysql 50 := by
  have h := c5_fail_increments_and_hides Config.source
    { queue := [{ id := 1, endpoint := "e", data := "p", timestamp := 1,
                  attempts := 2, last_attempt := none,
                  destination := Destination.mysql }],
      nextId := 2, clock := 5 }
    { id := 1, endpoint := "e", data := "p", timestamp := 1, attempts := 2,
      last_attempt := none, destination := Destination.mysql }
    (by decide) (by decide)
  exact ⟨h.1, fun hmem => h.2.2.2 (by decide) [] Destination.mysql 50 _ hmem rfl⟩

/-- C6: `get_pending_records destination limit` returns exactly the queued
records of that destination with attempts < `MAX_RETRIES`, oldest-first by
creation time, truncated to `limit`: every returned row matches the filter,
the batch is ordered by `created_at`, it has at most `limit` rows, and any
matching row left out is only left out because the batch is already full
of rows created no later than it. -/
theorem c6_pending_exactly_matching_oldest_first (cfg : Config)
    (s : OfflineStorage) (d : Destination) (l : Nat) :
    (∀ r ∈ get_pending_records cfg s d l,
      r ∈ s.queue ∧ r.attempts < cfg.maxRetries ∧ r.destination = d) ∧
    (get_pending_records cfg s d l).Pairwise
      (fun a b => a.timestamp ≤ b.timestamp) ∧
    (get_pending_records cfg s d l).length ≤ l ∧
    (∀ r ∈ s.queue, r.attempts < cfg.maxRetries → r.destination = d →
      r ∉ get_pending_records cfg s d l →
      (get_pending_records cfg s d l).length = l ∧
      ∀ r' ∈ get_pending_records cfg s d l, r'.timestamp ≤ r.timestamp) := by
  refine ⟨fun r hr => get_pending_records_mem hr, ?_, get_pending_records_length cfg s d l, ?_⟩
  · rw [get_pending_records]
    exact List.Pairwise.sublist (List.take_sublist _ _)
      (List.sorted_insertionSort timeLE _)
  · intro r hrq hatt hdest hnot
    have hrs : r ∈ ((s.queue.filter fun q =>
        decide (q.attempts < cfg.maxRetries) && decide (q.destination = d)).insertionSort
          timeLE) := by
      rw [List.mem_insertionSort]
      exact List.mem_filter.mpr ⟨hrq, by
        rw [Bool.and_eq_true_iff]
        exact ⟨decide_eq_true hatt, decide_eq_true hdest⟩⟩
    set sorted := ((s.queue.filter fun q =>
        decide (q.attempts < cfg.maxRetries) && decide (q.destination = d)).insertionSort
          timeLE) with hsorted
    have hsplit : sorted.take l ++ sorted.drop l = sorted := List.take_append_drop l sorted
    have hrdrop : r ∈ sorted.drop l := by
      have hr2 : r ∈ sorted.take l ++ sorted.drop l := by rw [hsplit]; exact hrs
      rcases List.mem_append.mp hr2 with h | h
      · rw [get_pending_records] at hnot
        exact absurd h hnot
      · exact h
    have hlen : l < sorted.length := by
      rcases Nat.lt_or_ge l sorted.length with h | h
      · exact h
      · rw [List.drop_eq_nil_of_le h] at hrdrop
        cases hrdrop
    constructor
    · rw [get_pending_records, List.length_take]
      exact Nat.min_eq_left (Nat.le_of_lt hlen)
    · intro r' hr'
      have hpw : (sorted.take l ++ sorted.drop l).Pairwise timeLE := by
        rw [hsplit]
        exact List.sorted_insertionSort timeLE _
      rw [get_pending_records] at hr'
      exact (List.pairwise_append.mp hpw).2.2 r' hr' r hrdrop

/-- Witness for C6: with two matching rows and limit 1, the older row fills
the batch and the newer matching row is the one left out. -/
theorem c6_pending_exactly_matching_oldest_first_witness :
    (get_pending_records Config.source
        { queue := [{ id := 1, endpoint := "e", data := "p", timestamp := 1,
                      attempts := 0, last_attempt := none,
                      destination := Destination.mysql },
                    { id := 2, endpoint := "e", data := "p", timestamp := 2,
                      attempts := 0, last_attempt := none,
                      destination := Destination.mysql }],
          nextId := 3, clock := 3 } Destination.mysql 1).length = 1 ∧
    (1 : Nat) ≤ 2 := by
  have h := (c6_pending_exactly_matching_oldest_first Config.source
    { queue := [{ id := 1, endpoint := "e", data := "p", timestamp := 1,
                  attempts := 0, last_attempt := none,
                  destination := Destination.mysql },
                { id := 2, endpoint := "e", data := "p", timestamp := 2,
                  attempts := 0, last_attempt := none,
                  destination := Destination.mysql }],
      nextId := 3, clock := 3 } Destination.mysql 1).2.2.2
    { id := 2, endpoint := "e", data := "p", timestamp := 2, attempts := 0,
      last_attempt := none, destination := Destination.mysql }
    (by decide) (by decide) (by decide) (by decide)
  refine ⟨h.1, ?_⟩
  exact h.2
    { id := 1, endpoint := "e", data := "p", timestamp := 1, attempts := 0,
      last_attempt := none, destination := Destination.mysql }
    (by decide)

/-- C9 counterexample: both calls fail — every API attempt fails, and the
direct MySQL read fails with a driver Error (MySQL server unreachable with
an initialized pool, the `except Error` branch of
`get_sensor_assignment`) — yet the handler answers 404 "Sensor not found",
not 503 Unavailable: the Error is absorbed into `None`, which the handler
cannot tell apart from a missing sensor. -/
theorem c9_counterexample :
    (call_api Config.source (fun _ => false)).1 = false ∧
    (handle_assignment_check Config.source (fun _ => false) "S1" DbResult.dbError
        OfflineStorage.init).1 = AssignmentResponse.notFound ∧
    (handle_assignment_check Config.source (fun _ => false) "S1" DbResult.dbError
        OfflineStorage.init).1 ≠ AssignmentResponse.unavailable :=
  ⟨by decide, by decide, by decide⟩

/-- C9 (amended): an assignment check first tries the Remote API (a
success is answered from the API response); on API failure it falls back
to the synchronous direct MySQL read; in every outcome the offline queue
is left exactly as it was — an assignment query is never appended to it.
When the API has failed and the direct read also fails, the answer depends
on how the read fails: the pool-unavailable exception escapes the read and
yields 503 Unavailable, but a driver Error inside the read is absorbed
into `None` and yields 404 "Sensor not found". -/
theorem c9_read_fallback_responses (cfg : Config)
    (outcomes : Nat → Bool) (m : String) (lookup : DbResult (Option SensorRow))
    (s : OfflineStorage) :
    (handle_assignment_check cfg outcomes m lookup s).2 = s ∧
    ((call_api cfg outcomes).1 = true →
      (handle_assignment_check cfg outcomes m lookup s).1 = .okFromApi) ∧
    ((call_api cfg outcomes).1 = false → lookup = .connError →
      (handle_assignment_check cfg outcomes m lookup s).1 = .unavailable) ∧
    ((call_api cfg outcomes).1 = false → lookup = .dbError →
      (handle_assignment_check cfg outcomes m lookup s).1 = .notFound) := by
  cases hc : (call_api cfg outcomes).1 with
  | true =>
    refine ⟨?_, fun _ => ?_, fun hfc => absurd hfc (by decide),
      fun hfc => absurd hfc (by decide)⟩
    · rw [handle_assignment_check]
      rcases hca : call_api cfg outcomes with ⟨b, n⟩
      rw [hca] at hc
      have hb : b = true := hc
      subst hb
      rw [if_pos rfl]
    · rw [handle_assignment_check]
      rcases hca : call_api cfg outcomes with ⟨b, n⟩
      rw [hca] at hc
      have hb : b = true := hc
      subst hb
      rw [if_pos rfl]
  | false =>
    have hred : handle_assignment_check cfg outcomes m lookup s
        = match get_sensor_assignment m lookup with
          | .ok (some info) => (.okFromDb info, s)
          | .ok none => (.notFound, s)
          | .error _ => (.unavailable, s) := by
      rw [handle_assignment_check]
      rcases hca : call_api cfg outcomes with ⟨b, n⟩
      rw [hca] at hc
      have hb : b = false := hc
      subst hb
      rw [if_neg Bool.false_ne_true]
    refine ⟨?_, fun htc => absurd htc Bool.false_ne_true,
      fun _ hl => ?_, fun _ hl => ?_⟩
    · rw [hred]
      rcases hga : get_sensor_assignment m lookup with u | v
      · rfl
      · rcases v with _ | info <;> rfl
    · subst hl
      rw [hred]
      rfl
    · subst hl
      rw [hred]
      rfl

/-- Witness for C9 (amended): with the API down, the pool-unavailable read
failure yields 503 with the queue untouched, while the driver-Error read
failure yields 404. -/
theorem c9_read_fallback_responses_witness :
    (handle_assignment_check Config.source (fun _ => false) "S1"
        DbResult.connError OfflineStorage.init).2 = OfflineStorage.init ∧
    (handle_assignment_check Config.source (fun _ => false) "S1"
        DbResult.connError OfflineStorage.init).1 = AssignmentResponse.unavailable ∧
    (handle_assignment_check Config.source (fun _ => false) "S1"
        DbResult.dbError OfflineStorage.init).1 = AssignmentResponse.notFound :=
  ⟨(c9_read_fallback_responses Config.source (fun _ => false) "S1"
      DbResult.connError OfflineStorage.init).1,
   (c9_read_fallback_responses Config.source (fun _ => false) "S1"
      DbResult.connError OfflineStorage.init).2.2.1 (by decide) rfl,
   (c9_read_fallback_responses Config.source (fun _ => false) "S1"
      DbResult.dbError OfflineStorage.init).2.2.2 (by decide) rfl⟩

/-- C10: `fail` has an existence precondition that `complete` does not: on
an id with no matching row, `update_attempt(id, False)` raises — the
post-update `SELECT attempts` finds no row and subscripting the empty
result fails — while `update_attempt(id, True)` succeeds as a no-op
delete, leaving the table unchanged. -/
theorem c10_fail_raises_on_missing_complete_does_not (s : OfflineStorage)
    (i : Nat) (h : ∀ r ∈ s.queue, r.id ≠ i) :
    update_attempt s i false = none ∧
    update_attempt s i true = some { s with clock := s.clock + 1 } := by
  refine ⟨update_attempt_false_of_not_mem h, ?_⟩
  have hfilter : (s.queue.filter fun r => decide (r.id ≠ i)) = s.queue :=
    List.filter_eq_self.mpr fun a ha => decide_eq_true (h a ha)
  rw [update_attempt_true, hfilter]

/-- Witness for C10 on a one-row table and a missing id. -/
theorem c10_fail_raises_on_missing_complete_does_not_witness :
    update_attempt { queue := [{ id := 5, endpoint := "e", data := "p",
                                 timestamp := 1, attempts := 0, last_attempt := none,
                                 destination := Destination.mysql }],
                     nextId := 6, clock := 2 } 3 false = none ∧
    update_attempt { queue := [{ id := 5, endpoint := "e", data := "p",
                                 timestamp := 1, attempts := 0, last_attempt := none,
                                 destination := Destination.mysql }],
                     nextId := 6, clock := 2 } 3 true
      = some { queue := [{ id := 5, endpoint := "e", data := "p", timestamp := 1,
                           attempts := 0, last_attempt := none,
                           destination := Destination.mysql }],
               nextId := 6, clock := 3 } :=
  c10_fail_raises_on_missing_complete_does_not
    { queue := [{ id := 5, endpoint := "e", data := "p", timestamp := 1,
                  attempts := 0, last_attempt := none,
                  destination := Destination.mysql }],
      nextId := 6, clock := 2 } 3 (by decide)

/-- One resync phase leaves a record whose attempts are at `MAX_RETRIES`
untouched: it is invisible to the drained batch, so no update reaches it. -/
theorem phase_keeps_exhausted (cfg : Config) (deliver : Record → Bool)
    (d : Destination) (s : OfflineStorage) (st : Stats) (r : Record)
    (hinv : Inv s) (hr : r ∈ s.queue) (hex : cfg.maxRetries ≤ r.attempts) :
    ∃ s1 st1,
      process_records deliver (get_pending_records cfg s d cfg.batchSize) s st
        = some (s1, st1, (get_pending_records cfg s d cfg.batchSize).map Record.id) ∧
      Inv s1 ∧ r ∈ s1.queue := by
  obtain ⟨s1, st1, heq, hinv1, _, _, _, _, _, hkeep, _⟩ :=
    process_records_spec deliver (get_pending_records cfg s d cfg.batchSize) s st hinv
      (fun q hq => (get_pending_records_mem hq).1)
      (get_pending_records_nodup cfg s d cfg.batchSize hinv)
  refine ⟨s1, st1, heq, hinv1, hkeep r hr ?_⟩
  intro q hq hqid
  have hq2 : q ∈ s.queue := (get_pending_records_mem hq).1
  have hqr : q = r := mem_id_inj hinv.1 q hq2 r hr hqid
  subst hqr
  exact absurd hex (Nat.not_le_of_lt (get_pending_records_mem hq).2.1)

/-- C4 (amended): the retry and resync machinery never deletes an
exhausted record: a record whose attempts have reached `MAX_RETRIES`
survives every resync cycle — whatever the probes report and whatever the
deliveries do — unchanged in the queue.  (Only the capacity eviction of
`save_offline` can remove it; see the counterexample to the original
claim.) -/
theorem c4_exhausted_survives_resync (cfg : Config) (mh ah : Bool)
    (dm da : Record → Bool) (s : OfflineStorage) (st : Stats)
    (s' : OfflineStorage) (st' : Stats) (log : List Nat) (r : Record)
    (hinv : Inv s) (hr : r ∈ s.queue) (hex : cfg.maxRetries ≤ r.attempts)
    (hc : process_offline_queue_cycle cfg mh ah dm da s st = some (s', st', log)) :
    r ∈ s'.queue := by
  cases mh with
  | false =>
    cases ah with
    | false =>
      have hval : process_offline_queue_cycle cfg false false dm da s st
          = some (s, st, ([] : List Nat) ++ []) :=
        cycle_eq cfg false false dm da s st rfl rfl
      rw [hval, Option.some_inj, Prod.mk.injEq, Prod.mk.injEq] at hc
      rw [← hc.1]
      exact hr
    | true =>
      obtain ⟨s1, st1, heq, hinv1, hmem1⟩ :=
        phase_keeps_exhausted cfg da .api s st r hinv hr hex
      have hval : process_offline_queue_cycle cfg false true dm da s st
          = some (s1, st1, ([] : List Nat)
              ++ (get_pending_records cfg s .api cfg.batchSize).map Record.id) :=
        cycle_eq cfg false true dm da s st rfl (by rw [if_pos rfl]; exact heq)
      rw [hval, Option.some_inj, Prod.mk.injEq, Prod.mk.injEq] at hc
      rw [← hc.1]
      exact hmem1
  | true =>
    obtain ⟨s1, st1, heq1, hinv1, hmem1⟩ :=
      phase_keeps_exhausted cfg dm .mysql s st r hinv hr hex
    cases ah with
    | false =>
      have hval : process_offline_queue_cycle cfg true false dm da s st
          = some (s1, st1,
              (get_pending_records cfg s .mysql cfg.batchSize).map Record.id ++ []) :=
        cycle_eq cfg true false dm da s st (by rw [if_pos rfl]; exact heq1) rfl
      rw [hval, Option.some_inj, Prod.mk.injEq, Prod.mk.injEq] at hc
      rw [← hc.1]
      exact hmem1
    | true =>
      obtain ⟨s2, st2, heq2, hinv2, hmem2⟩ :=
        phase_keeps_exhausted cfg da .api s1 st1 r hinv1 hmem1 hex
      have hval : process_offline_queue_cycle cfg true true dm da s st
          = some (s2, st2,
              (get_pending_records cfg s .mysql cfg.batchSize).map Record.id
                ++ (get_pending_records cfg s1 .api cfg.batchSize).map Record.id) :=
        cycle_eq cfg true true dm da s st (by rw [if_pos rfl]; exact heq1)
          (by rw [if_pos rfl]; exact heq2)
      rw [hval, Option.some_inj, Prod.mk.injEq, Prod.mk.injEq] at hc
      rw [← hc.1]
      exact hmem2

/-- Witness for C4 (amended): a table holding one exhausted record; a full
cycle with both destinations healthy and all deliveries succeeding leaves
it in place. -/
theorem c4_exhausted_survives_resync_witness :
    ({ id := 1, endpoint := "e", data := "p", timestamp := 1, attempts := 3,
       last_attempt := none, destination := Destination.mysql } : Record)
      ∈ ({ queue := [{ id := 1, endpoint := "e", data := "p", timestamp := 1,
                       attempts := 3, last_attempt := none,
                       destination := Destination.mysql }],
           nextId := 2, clock := 2 } : OfflineStorage).queue :=
  c4_exhausted_survives_resync Config.source true true (fun _ => true) (fun _ => true)
    { queue := [{ id := 1, endpoint := "e", data := "p", timestamp := 1,
                  attempts := 3, last_attempt := none,
                  destination := Destination.mysql }],
      nextId := 2, clock := 2 }
    { offline_synced := 0 }
    { queue := [{ id := 1, endpoint := "e", data := "p", timestamp := 1,
                  attempts := 3, last_attempt := none,
                  destination := Destination.mysql }],
      nextId := 2, clock := 2 }
    { offline_synced := 0 } []
    { id := 1, endpoint := "e", data := "p", timestamp := 1, attempts := 3,
      last_attempt := none, destination := Destination.mysql }
    (by decide) (by decide) (by decide) rfl

/-- The row of the full table used to refute C4 as stated: row `i` has id
and creation time `i + 1`; the oldest row (`i = 0`) is exhausted. -/
def bigRow (i : Nat) : Record :=
  { id := i + 1, endpoint := "/api/sensor-data", data := "p", timestamp := i + 1,
    attempts := if i = 0 then 3 else 0, last_attempt := none,
    destination := Destination.mysql }

/-- A table filled to `MAX_OFFLINE_RECORDS = 10000` rows whose globally
oldest row is exhausted. -/
def bigQueue : List Record :=
  (List.range 10000).map bigRow

def bigState : OfflineStorage :=
  { queue := bigQueue, nextId := 10001, clock := 10001 }

theorem bigState_queue : bigState.queue = bigQueue := by
  simp only [bigState]

theorem bigState_nextId : bigState.nextId = 10001 := by
  simp only [bigState]

theorem bigState_clock : bigState.clock = 10001 := by
  simp only [bigState]

theorem bigQueue_eq : bigQueue = (List.range 10000).map bigRow := by
  simp only [bigQueue]

theorem bigQueue_length : bigQueue.length = 10000 := by
  rw [bigQueue_eq, List.length_map, List.length_range]

theorem bigQueue_pairwise : bigQueue.Pairwise RowLT := by
  rw [bigQueue_eq]
  refine List.pairwise_map.mpr ((List.pairwise_lt_range 10000).imp ?_)
  intro i j hij
  exact ⟨Nat.succ_lt_succ hij, Nat.succ_lt_succ hij⟩

theorem bigQueue_id_lt : ∀ r ∈ bigQueue, r.id < 10001 := by
  rw [bigQueue_eq]
  intro r hr
  rcases List.mem_map.mp hr with ⟨i, hi, rfl⟩
  exact Nat.succ_lt_succ (List.mem_range.mp hi)

theorem bigQueue_timestamp_lt : ∀ r ∈ bigQueue, r.timestamp < 10001 := by
  rw [bigQueue_eq]
  intro r hr
  rcases List.mem_map.mp hr with ⟨i, hi, rfl⟩
  exact Nat.succ_lt_succ (List.mem_range.mp hi)

theorem inv_bigState : Inv bigState := by
  refine ⟨?_, ?_, ?_⟩
  · rw [bigState_queue]
    exact bigQueue_pairwise
  · rw [bigState_queue, bigState_nextId]
    exact bigQueue_id_lt
  · rw [bigState_queue, bigState_clock]
    exact bigQueue_timestamp_lt

theorem bigQueue_take_one : bigQueue.take 1 = [bigRow 0] := by
  rw [bigQueue_eq, ← List.map_take, List.take_range]
  rfl

/-- C4 counterexample: the exhausted oldest row of a full table IS
automatically deleted — the capacity eviction of `save_offline` removes
the globally oldest row regardless of its attempts count, so "never
automatically deleted by any operation" fails on the append operation. -/
theorem c4_counterexample :
    bigRow 0 ∈ bigState.queue ∧
    Config.source.maxRetries ≤ (bigRow 0).attempts ∧
    bigRow 0 ∉ (save_offline Config.source bigState "e" "p" Destination.mysql).1.queue := by
  refine ⟨?_, by decide, ?_⟩
  · rw [bigState_queue, bigQueue_eq]
    exact List.mem_map_of_mem bigRow (List.mem_range.mpr (by norm_num))
  intro hmem
  rw [save_offline_queue Config.source bigState "e" "p" Destination.mysql inv_bigState,
    bigState_queue, bigQueue_length] at hmem
  have hk : (10000 + 1 : Nat) - Config.source.maxOfflineRecords = 1 := by decide
  rw [hk] at hmem
  have hpw : (bigQueue ++ [newRecord bigState "e" "p" Destination.mysql]).Pairwise
      RowLT := by
    have h := pairwise_insert inv_bigState "e" "p" Destination.mysql
    rwa [bigState_queue] at h
  have h1 : (1 : Nat) ≤ bigQueue.length := by
    rw [bigQueue_length]
    norm_num
  have htake : (bigQueue ++ [newRecord bigState "e" "p" Destination.mysql]).take 1
      = [bigRow 0] := by
    rw [List.take_append_of_le_length h1, bigQueue_take_one]
  have hsplit :
      (bigQueue ++ [newRecord bigState "e" "p" Destination.mysql]).take 1
        ++ (bigQueue ++ [newRecord bigState "e" "p" Destination.mysql]).drop 1
      = bigQueue ++ [newRecord bigState "e" "p" Destination.mysql] :=
    List.take_append_drop _ _
  have hpw2 := List.pairwise_append.mp (by rw [hsplit]; exact hpw)
  have hlt := (hpw2.2.2 (bigRow 0) (by rw [htake]; exact List.mem_singleton.mpr rfl)
    (bigRow 0) hmem).1
  exact Nat.lt_irrefl _ hlt

/-- C7: for every resync cycle, whichever destination's health probe
reports it unavailable at cycle start, that destination's records exit the
cycle completely unchanged — its rows in the final queue are exactly (same
rows, same order, hence same attempts and last_attempt values) its rows in
the initial queue — and every delivery attempted during the cycle was for
a record of the other destination: the skipped destination sees no
delivery attempts, no updates and no deletions.  Stated for both
destinations of the cycle. -/
theorem c7_unavailable_destination_untouched (cfg : Config) (mh ah : Bool)
    (dm da : Record → Bool) (s : OfflineStorage) (st : Stats)
    (s' : OfflineStorage) (st' : Stats) (log : List Nat)
    (hinv : Inv s)
    (hc : process_offline_queue_cycle cfg mh ah dm da s st = some (s', st', log)) :
    (mh = false →
      (s'.queue.filter fun q => decide (q.destination = Destination.mysql))
        = (s.queue.filter fun q => decide (q.destination = Destination.mysql)) ∧
      (∀ i ∈ log, ∀ r ∈ s.queue, r.id = i → r.destination = Destination.api)) ∧
    (ah = false →
      (s'.queue.filter fun q => decide (q.destination = Destination.api))
        = (s.queue.filter fun q => decide (q.destination = Destination.api)) ∧
      (∀ i ∈ log, ∀ r ∈ s.queue, r.id = i → r.destination = Destination.mysql)) := by
  cases mh with
  | false =>
    cases ah with
    | false =>
      have hval : process_offline_queue_cycle cfg false false dm da s st
          = some (s, st, ([] : List Nat) ++ []) :=
        cycle_eq cfg false false dm da s st rfl rfl
      rw [hval, Option.some_inj, Prod.mk.injEq, Prod.mk.injEq] at hc
      obtain ⟨h1, _, h3⟩ := hc
      subst h1
      subst h3
      exact ⟨fun _ => ⟨rfl, fun i hi => absurd hi (List.not_mem_nil i)⟩,
             fun _ => ⟨rfl, fun i hi => absurd hi (List.not_mem_nil i)⟩⟩
    | true =>
      obtain ⟨s2, st2, heq, hinv2, hnext, hsync, hdel, hbump, hold, hkeep, hfilt⟩ :=
        process_records_spec da (get_pending_records cfg s .api cfg.batchSize) s st hinv
          (fun q hq => (get_pending_records_mem hq).1)
          (get_pending_records_nodup cfg s .api cfg.batchSize hinv)
      have hval : process_offline_queue_cycle cfg false true dm da s st
          = some (s2, st2, ([] : List Nat)
              ++ (get_pending_records cfg s .api cfg.batchSize).map Record.id) :=
        cycle_eq cfg false true dm da s st rfl (by rw [if_pos rfl]; exact heq)
      rw [hval, Option.some_inj, Prod.mk.injEq, Prod.mk.injEq] at hc
      obtain ⟨h1, _, h3⟩ := hc
      subst h1
      subst h3
      refine ⟨fun _ => ⟨?_, ?_⟩, fun hfalse => absurd hfalse (by decide)⟩
      · refine hfilt Destination.mysql ?_
        intro q hq hqd
        have hapi := (get_pending_records_mem hq).2.2
        rw [hapi] at hqd
        exact Destination.noConfusion hqd
      · intro i hi r hrq hid
        rw [List.nil_append] at hi
        rcases List.mem_map.mp hi with ⟨q, hq, rfl⟩
        have hq2 := get_pending_records_mem hq
        have hrqeq : r = q := mem_id_inj hinv.1 r hrq q hq2.1 hid
        rw [hrqeq]
        exact hq2.2.2
  | true =>
    cases ah with
    | false =>
      obtain ⟨s2, st2, heq, hinv2, hnext, hsync, hdel, hbump, hold, hkeep, hfilt⟩ :=
        process_records_spec dm (get_pending_records cfg s .mysql cfg.batchSize) s st hinv
          (fun q hq => (get_pending_records_mem hq).1)
          (get_pending_records_nodup cfg s .mysql cfg.batchSize hinv)
      have hval : process_offline_queue_cycle cfg true false dm da s st
          = some (s2, st2,
              (get_pending_records cfg s .mysql cfg.batchSize).map Record.id ++ []) :=
        cycle_eq cfg true false dm da s st (by rw [if_pos rfl]; exact heq) rfl
      rw [hval, Option.some_inj, Prod.mk.injEq, Prod.mk.injEq] at hc
      obtain ⟨h1, _, h3⟩ := hc
      subst h1
      subst h3
      refine ⟨fun hfalse => absurd hfalse (by decide), fun _ => ⟨?_, ?_⟩⟩
      · refine hfilt Destination.api ?_
        intro q hq hqd
        have hmysql := (get_pending_records_mem hq).2.2
        rw [hmysql] at hqd
        exact Destination.noConfusion hqd
      · intro i hi r hrq hid
        rw [List.append_nil] at hi
        rcases List.mem_map.mp hi with ⟨q, hq, rfl⟩
        have hq2 := get_pending_records_mem hq
        have hrqeq : r = q := mem_id_inj hinv.1 r hrq q hq2.1 hid
        rw [hrqeq]
        exact hq2.2.2
    | true =>
      exact ⟨fun hfalse => absurd hfalse (by decide),
             fun hfalse => absurd hfalse (by decide)⟩

/-- Witness for C7, in both directions on the same two-row table (one
mysql row, one api row, both drainable): with MySQL reported down the api
row is drained (and fails) while the mysql rows are untouched; with the
API reported down the mysql row is drained (and fails) while the api rows
are untouched. -/
theorem c7_unavailable_destination_untouched_witness :
    ((({ queue := [{ id := 1, endpoint := "e", data := "p", timestamp := 1,
                     attempts := 0, last_attempt := none,
                     destination := Destination.mysql },
                   { id := 2, endpoint := "e", data := "p", timestamp := 2,
                     attempts := 1, last_attempt := some 3,
                     destination := Destination.api }],
         nextId := 3, clock := 4 } : OfflineStorage).queue.filter
        fun q => decide (q.destination = Destination.mysql))
      = (({ queue := [{ id := 1, endpoint := "e", data := "p", timestamp := 1,
                        attempts := 0, last_attempt := none,
                        destination := Destination.mysql },
                      { id := 2, endpoint := "e", data := "p", timestamp := 2,
                        attempts := 0, last_attempt := none,
                        destination := Destination.api }],
            nextId := 3, clock := 3 } : OfflineStorage).queue.filter
        fun q => decide (q.destination = Destination.mysql)) ∧
     (∀ i ∈ [2], ∀ r ∈ ({ queue := [{ id := 1, endpoint := "e", data := "p",
                                      timestamp := 1, attempts := 0,
                                      last_attempt := none,
                                      destination := Destination.mysql },
                                    { id := 2, endpoint := "e", data := "p",
                                      timestamp := 2, attempts := 0,
                                      last_attempt := none,
                                      destination := Destination.api }],
                          nextId := 3, clock := 3 } : OfflineStorage).queue,
       r.id = i → r.destination = Destination.api)) ∧
    ((({ queue := [{ id := 1, endpoint := "e", data := "p", timestamp := 1,
                     attempts := 1, last_attempt := some 3,
                     destination := Destination.mysql },
                   { id := 2, endpoint := "e", data := "p", timestamp := 2,
                     attempts := 0, last_attempt := none,
                     destination := Destination.api }],
         nextId := 3, clock := 4 } : OfflineStorage).queue.filter
        fun q => decide (q.destination = Destination.api))
      = (({ queue := [{ id := 1, endpoint := "e", data := "p", timestamp := 1,
                        attempts := 0, last_attempt := none,
                        destination := Destination.mysql },
                      { id := 2, endpoint := "e", data := "p", timestamp := 2,
                        attempts := 0, last_attempt := none,
                        destination := Destination.api }],
            nextId := 3, clock := 3 } : OfflineStorage).queue.filter
        fun q => decide (q.destination = Destination.api)) ∧
     (∀ i ∈ [1], ∀ r ∈ ({ queue := [{ id := 1, endpoint := "e", data := "p",
                                      timestamp := 1, attempts := 0,
                                      last_attempt := none,
                                      destination := Destination.mysql },
                                    { id := 2, endpoint := "e", data := "p",
                                      timestamp := 2, attempts := 0,
                                      last_attempt := none,
                                      destination := Destination.api }],
                          nextId := 3, clock := 3 } : OfflineStorage).queue,
       r.id = i → r.destination = Destination.mysql)) :=
  ⟨(c7_unavailable_destination_untouched Config.source false true
      (fun _ => false) (fun _ => false)
      { queue := [{ id := 1, endpoint := "e", data := "p", timestamp := 1,
                    attempts := 0, last_attempt := none,
                    destination := Destination.mysql },
                  { id := 2, endpoint := "e", data := "p", timestamp := 2,
                    attempts := 0, last_attempt := none,
                    destination := Destination.api }],
        nextId := 3, clock := 3 }
      { offline_synced := 0 }
      { queue := [{ id := 1, endpoint := "e", data := "p", timestamp := 1,
                    attempts := 0, last_attempt := none,
                    destination := Destination.mysql },
                  { id := 2, endpoint := "e", data := "p", timestamp := 2,
                    attempts := 1, last_attempt := some 3,
                    destination := Destination.api }],
        nextId := 3, clock := 4 }
      { offline_synced := 0 } [2]
      (by decide) (by decide)).1 rfl,
   (c7_unavailable_destination_untouched Config.source true false
      (fun _ => false) (fun _ => false)
      { queue := [{ id := 1, endpoint := "e", data := "p", timestamp := 1,
                    attempts := 0, last_attempt := none,
                    destination := Destination.mysql },
                  { id := 2, endpoint := "e", data := "p", timestamp := 2,
                    attempts := 0, last_attempt := none,
                    destination := Destination.api }],
        nextId := 3, clock := 3 }
      { offline_synced := 0 }
      { queue := [{ id := 1, endpoint := "e", data := "p", timestamp := 1,
                    attempts := 1, last_attempt := some 3,
                    destination := Destination.mysql },
                  { id := 2, endpoint := "e", data := "p", timestamp := 2,
                    attempts := 0, last_attempt := none,
                    destination := Destination.api }],
        nextId := 3, clock := 4 }
      { offline_synced := 0 } [1]
      (by decide) (by decide)).2 rfl⟩

/-- C8: for an available destination (the other phase disabled so the
phase's effect is visible in the final state), one cycle drains at most
`BATCH_SIZE` pending records and processes them sequentially: every
drained record gets exactly one delivery attempt in order — a failure does
not abort the rest of the batch — each failure increments that record's
attempts in place and stamps `last_attempt`, each success deletes the
record, and the synced counter grows by exactly the number of successes.
Stated for both destinations. -/
theorem c8_batch_drain_semantics (cfg : Config) (dm da : Record → Bool)
    (s : OfflineStorage) (st : Stats)
    (sM : OfflineStorage) (stM : Stats) (logM : List Nat)
    (sA : OfflineStorage) (stA : Stats) (logA : List Nat)
    (hinv : Inv s)
    (hcM : process_offline_queue_cycle cfg true false dm da s st = some (sM, stM, logM))
    (hcA : process_offline_queue_cycle cfg false true dm da s st = some (sA, stA, logA)) :
    ((get_pending_records cfg s .mysql cfg.batchSize).length ≤ cfg.batchSize ∧
     logM = (get_pending_records cfg s .mysql cfg.batchSize).map Record.id ∧
     stM.offline_synced = st.offline_synced
       + ((get_pending_records cfg s .mysql cfg.batchSize).filter dm).length ∧
     (∀ r ∈ get_pending_records cfg s .mysql cfg.batchSize, dm r = true →
        ∀ q ∈ sM.queue, q.id ≠ r.id) ∧
     (∀ r ∈ get_pending_records cfg s .mysql cfg.batchSize, dm r = false →
        ∃ q ∈ sM.queue, q.id = r.id ∧ q.attempts = r.attempts + 1 ∧
          q.last_attempt.isSome = true)) ∧
    ((get_pending_records cfg s .api cfg.batchSize).length ≤ cfg.batchSize ∧
     logA = (get_pending_records cfg s .api cfg.batchSize).map Record.id ∧
     stA.offline_synced = st.offline_synced
       + ((get_pending_records cfg s .api cfg.batchSize).filter da).length ∧
     (∀ r ∈ get_pending_records cfg s .api cfg.batchSize, da r = true →
        ∀ q ∈ sA.queue, q.id ≠ r.id) ∧
     (∀ r ∈ get_pending_records cfg s .api cfg.batchSize, da r = false →
        ∃ q ∈ sA.queue, q.id = r.id ∧ q.attempts = r.attempts + 1 ∧
          q.last_attempt.isSome = true)) := by
  constructor
  · obtain ⟨s2, st2, heq, hinv2, hnext, hsync, hdel, hbump, hold, hkeep, hfilt⟩ :=
      process_records_spec dm (get_pending_records cfg s .mysql cfg.batchSize) s st hinv
        (fun q hq => (get_pending_records_mem hq).1)
        (get_pending_records_nodup cfg s .mysql cfg.batchSize hinv)
    have hval : process_offline_queue_cycle cfg true false dm da s st
        = some (s2, st2,
            (get_pending_records cfg s .mysql cfg.batchSize).map Record.id ++ []) :=
      cycle_eq cfg true false dm da s st (by rw [if_pos rfl]; exact heq) rfl
    rw [hval, Option.some_inj, Prod.mk.injEq, Prod.mk.injEq] at hcM
    obtain ⟨h1, h2, h3⟩ := hcM
    subst h1
    subst h2
    subst h3
    refine ⟨get_pending_records_length cfg s .mysql cfg.batchSize,
      List.append_nil _, hsync, hdel, ?_⟩
    intro r hr hd
    rcases hbump r hr hd with ⟨q, hq, hqi, hqa, _, hql⟩
    exact ⟨q, hq, hqi, hqa, hql⟩
  · obtain ⟨s2, st2, heq, hinv2, hnext, hsync, hdel, hbump, hold, hkeep, hfilt⟩ :=
      process_records_spec da (get_pending_records cfg s .api cfg.batchSize) s st hinv
        (fun q hq => (get_pending_records_mem hq).1)
        (get_pending_records_nodup cfg s .api cfg.batchSize hinv)
    have hval : process_offline_queue_cycle cfg false true dm da s st
        = some (s2, st2, ([] : List Nat)
            ++ (get_pending_records cfg s .api cfg.batchSize).map Record.id) :=
      cycle_eq cfg false true dm da s st rfl (by rw [if_pos rfl]; exact heq)
    rw [hval, Option.some_inj, Prod.mk.injEq, Prod.mk.injEq] at hcA
    obtain ⟨h1, h2, h3⟩ := hcA
    subst h1
    subst h2
    subst h3
    refine ⟨get_pending_records_length cfg s .api cfg.batchSize,
      List.nil_append _, hsync, hdel, ?_⟩
    intro r hr hd
    rcases hbump r hr hd with ⟨q, hq, hqi, hqa, _, hql⟩
    exact ⟨q, hq, hqi, hqa, hql⟩

/-- Witness for C8: one mysql row (delivery succeeds: synced counter goes
from 0 to 1) and one api row (delivery fails: it gets its one attempt
logged). -/
theorem c8_batch_drain_semantics_witness :
    ({ offline_synced := 1 } : Stats).offline_synced
      = ({ offline_synced := 0 } : Stats).offline_synced
        + ((get_pending_records Config.source
            { queue := [{ id := 1, endpoint := "e", data := "p", timestamp := 1,
                          attempts := 0, last_attempt := none,
                          destination := Destination.mysql },
                        { id := 2, endpoint := "e", data := "p", timestamp := 2,
                          attempts := 0, last_attempt := none,
                          destination := Destination.api }],
              nextId := 3, clock := 3 } Destination.mysql
            Config.source.batchSize).filter (fun _ => true)).length ∧
    [2] = (get_pending_records Config.source
            { queue := [{ id := 1, endpoint := "e", data := "p", timestamp := 1,
                          attempts := 0, last_attempt := none,
                          destination := Destination.mysql },
                        { id := 2, endpoint := "e", data := "p", timestamp := 2,
                          attempts := 0, last_attempt := none,
                          destination := Destination.api }],
              nextId := 3, clock := 3 } Destination.api
            Config.source.batchSize).map Record.id :=
  ⟨(c8_batch_drain_semantics Config.source (fun _ => true) (fun _ => false)
      { queue := [{ id := 1, endpoint := "e", data := "p", timestamp := 1,
                    attempts := 0, last_attempt := none,
                    destination := Destination.mysql },
                  { id := 2, endpoint := "e", data := "p", timestamp := 2,
                    attempts := 0, last_attempt := none,
                    destination := Destination.api }],
        nextId := 3, clock := 3 }
      { offline_synced := 0 }
      { queue := [{ id := 2, endpoint := "e", data := "p", timestamp := 2,
                    attempts := 0, last_attempt := none,
                    destination := Destination.api }],
        nextId := 3, clock := 4 }
      { offline_synced := 1 } [1]
      { queue := [{ id := 1, endpoint := "e", data := "p", timestamp := 1,
                    attempts := 0, last_attempt := none,
                    destination := Destination.mysql },
                  { id := 2, endpoint := "e", data := "p", timestamp := 2,
                    attempts := 1, last_attempt := some 3,
                    destination := Destination.api }],
        nextId := 3, clock := 4 }
      { offline_synced := 0 } [2]
      (by decide) (by decide) (by decide)).1.2.2.1,
   (c8_batch_drain_semantics Config.source (fun _ => true) (fun _ => false)
      { queue := [{ id := 1, endpoint := "e", data := "p", timestamp := 1,
                    attempts := 0, last_attempt := none,
                    destination := Destination.mysql },
                  { id := 2, endpoint := "e", data := "p", timestamp := 2,
                    attempts := 0, last_attempt := none,
                    destination := Destination.api }],
        nextId := 3, clock := 3 }
      { offline_synced := 0 }
      { queue := [{ id := 2, endpoint := "e", data := "p", timestamp := 2,
                    attempts := 0, last_attempt := none,
                    destination := Destination.api }],
        nextId := 3, clock := 4 }
      { offline_synced := 1 } [1]
      { queue := [{ id := 1, endpoint := "e", data := "p", timestamp := 1,
                    attempts := 0, last_attempt := none,
                    destination := Destination.mysql },
                  { id := 2, endpoint := "e", data := "p", timestamp := 2,
                    attempts := 1, last_attempt := some 3,
                    destination := Destination.api }],
        nextId := 3, clock := 4 }
      { offline_synced := 0 } [2]
      (by decide) (by decide) (by decide)).2.2.1⟩

end SoilGateway
